import Mathlib

/-! QuantumCrew-DevHack: the state of `frontend/src/App.js` and its handlers.

A shallow embedding of the state held by the `App` component, of
`checkForAlerts`, the function that derives alerts from a batch of sensor
readings and pushes them onto the bounded alert log, and of the handlers that
write the state: the socket listeners, `initializeMockData`, the fetches and
`controlValve`; then of the parts of `Dashboard.js` and `Alert.js` that read
that state: `getSensorColor`, the counts of the overviews and the valve panel.

Modelling decisions:

* A JavaScript number that arrives through JSON is a finite IEEE double, and
  every finite double is a rational number; `value`, `lat` and `lng` are
  therefore rationals, and `>` is the exact order.
* `Date.now()` and `new Date()` read the wall clock.  The host's clock is a
  function `clock : Nat → Nat` giving the millisecond returned by the n-th
  read, and the state carries the number of reads made so far (`tick`).
* `Number.prototype.toFixed` follows ECMAScript.  From `10^21` on it hands
  over to the engine's `Number::toString`, whose shortest round-trip digits
  depend on the binary format; that function is a component of the host.
* `setAlerts(prev => ...)` is a functional update, so successive calls compose
  sequentially on the alert log.
* An `async` function is a function of how its request settles; what it does
  besides writing state cells is returned as a list of effects.
* A variable that a function reads from the render that created it, and not
  from the current state, is an argument of its own.
-/

namespace QuantumCrew

/-! ## Data model -/

/-- A sensor reading, as the objects of `mockSensors` and of the
`sensor_update` payload. -/
structure Sensor where
  id : String
  type : String
  location : String
  lat : Rat
  lng : Rat
  value : Rat
  status : String
  timestamp : String
deriving DecidableEq

/-- An alert object as pushed by `checkForAlerts`.  `timestamp` is the instant
read by `new Date()`; `toISOString` renders it. -/
structure Alert where
  id : String
  type : String
  message : String
  sensor : Sensor
  timestamp : Nat
deriving DecidableEq

/-- An entry of the forecast list. -/
structure Forecast where
  date : String
  rainfall : Rat
  probability : Rat
deriving DecidableEq

/-- An entry of the AI decision list. -/
structure AiDecision where
  type : String
  priority : String
  message : String
  action : String
  confidence : Rat
deriving DecidableEq

/-- The `useState` cells of `App`, together with the number of wall-clock
reads made so far. -/
structure AppState where
  sensors : List Sensor
  forecast : List Forecast
  aiDecisions : List AiDecision
  alerts : List Alert
  isConnected : Bool
  activeTab : String
  connectionError : Bool
  tick : Nat
deriving DecidableEq

/-- The JavaScript host: `clock n` is the millisecond returned by the n-th
read of the wall clock, `numberToString` is the engine's `Number::toString`,
which `toFixed` uses for magnitudes from `10^21` on. -/
structure Host where
  clock : Nat → Nat
  numberToString : Rat → String

/-- Initial values of the `useState` cells. -/
def initialState : AppState :=
  { sensors := [], forecast := [], aiDecisions := [], alerts := [],
    isConnected := false, activeTab := "dashboard", connectionError := false,
    tick := 0 }

/-! ## `Number.prototype.toFixed` -/

/-- `x.toFixed(f)` for a finite number `x` (ECMAScript 21.1.3.3): the sign is
split off, a magnitude of at least `10^21` is printed by `Number::toString`,
and otherwise `n` is the integer nearest to `x * 10^f` (the larger one on a
tie), printed with a point before its last `f` digits and padded with zeros
on the left up to `f + 1` digits. -/
def toFixed (h : Host) (x : Rat) (f : Nat) : String :=
  let s := if x < 0 then "-" else ""
  let x := if x < 0 then -x else x
  if (10 : Rat) ^ 21 ≤ x then s ++ h.numberToString x
  else
    let n := (⌊x * (10 : Rat) ^ f + 1 / 2⌋).toNat
    let m := if n = 0 then "0" else toString n
    if f ≠ 0 then
      let k := m.length
      let m := if k ≤ f then String.mk (List.replicate (f + 1 - k) '0') ++ m else m
      let k := if k ≤ f then f + 1 else k
      s ++ (String.mk (m.data.take (k - f)) ++ "." ++ String.mk (m.data.drop (k - f)))
    else s ++ m

/-! ## `checkForAlerts` -/

/-- The template literal of the alert id, with `now` the value of `Date.now()`. -/
def alertId (sensorId : String) (now : Nat) : String :=
  "alert-" ++ sensorId ++ "-" ++ toString now

/-- The alert pushed for a `water_level` sensor above 80; the clock is read at
`tick` for the id and at `tick + 1` for the timestamp. -/
def warningAlert (h : Host) (tick : Nat) (sensor : Sensor) : Alert :=
  { id := alertId sensor.id (h.clock tick)
    type := "warning"
    message := "⚠️ Overflow Risk: " ++ sensor.location ++ " water level at "
      ++ toFixed h sensor.value 1 ++ "%"
    sensor := sensor
    timestamp := h.clock (tick + 1) }

/-- The alert pushed for a `storage` sensor above 90. -/
def criticalAlert (h : Host) (tick : Nat) (sensor : Sensor) : Alert :=
  { id := alertId sensor.id (h.clock tick)
    type := "critical"
    message := "🚨 Critical: " ++ sensor.location ++ " storage tank at "
      ++ toFixed h sensor.value 1 ++ "% capacity"
    sensor := sensor
    timestamp := h.clock (tick + 1) }

/-- The callback of `sensorData.forEach`: the accumulator is the array
`newAlerts` and the number of clock reads; the two `if` statements run one
after the other. -/
def forEachBody (h : Host) (acc : List Alert × Nat) (sensor : Sensor) : List Alert × Nat :=
  let acc1 :=
    if sensor.type = "water_level" ∧ sensor.value > 80 then
      (acc.1 ++ [warningAlert h acc.2 sensor], acc.2 + 2)
    else acc
  if sensor.type = "storage" ∧ sensor.value > 90 then
    (acc1.1 ++ [criticalAlert h acc1.2 sensor], acc1.2 + 2)
  else acc1

/-- The array `newAlerts` after the `forEach`, and the clock reads made. -/
def newAlerts (h : Host) (tick : Nat) (sensorData : List Sensor) : List Alert × Nat :=
  sensorData.foldl (forEachBody h) ([], tick)

/-- `checkForAlerts(sensorData)`: when `newAlerts` is non-empty the alert log
becomes `[...newAlerts, ...prev.slice(0, 9)]`. -/
def checkForAlerts (h : Host) (sensorData : List Sensor) (st : AppState) : AppState :=
  let r := newAlerts h st.tick sensorData
  if r.1.length > 0 then
    { st with alerts := r.1 ++ st.alerts.take 9, tick := r.2 }
  else
    { st with tick := r.2 }

/-- Batches handled one after another by `checkForAlerts`. -/
def checkAll (h : Host) (st : AppState) (batches : List (List Sensor)) : AppState :=
  batches.foldl (fun s b => checkForAlerts h b s) st

/-! ## Vocabulary of the specification -/

/-- The alert rule in the words of the specification: a `water_level` reading
above 80 or a `storage` reading above 90. -/
def Qualifies (s : Sensor) : Prop :=
  (s.type = "water_level" ∧ s.value > 80) ∨ (s.type = "storage" ∧ s.value > 90)

instance : DecidablePred Qualifies := fun s => by
  unfold Qualifies; exact inferInstance

/-- The alerts generated by successive batches, oldest first: the contents of
`newAlerts` of each call, with the clock reads threaded from call to call. -/
def generated (h : Host) : Nat → List (List Sensor) → List Alert
  | _, [] => []
  | tick, b :: bs => (newAlerts h tick b).1 ++ generated h (newAlerts h tick b).2 bs

/-- The string `t` occurs in the string `s`. -/
def Occurs (t s : String) : Prop := ∃ a b : String, s = a ++ t ++ b

/-- A reading as the mock data writes it, with the fields the alert rule does
not read left at fixed values. -/
def reading (id type location : String) (value : Rat) : Sensor :=
  { id := id, type := type, location := location, lat := 0, lng := 0,
    value := value, status := "active", timestamp := "2024-01-15T00:00:00.000Z" }

/-- A host for evaluating concrete runs: the clock starts at
1 700 000 000 000 ms and advances by one millisecond every eight reads;
`numberToString` is the engine's answer at `10^21`, the only argument it meets
in the runs below. -/
def sampleHost : Host :=
  { clock := fun n => 1700000000000 + n / 8
    numberToString := fun _ => "1e+21" }

/-- A batch in which both lakes and both tanks of the mock data are above
their thresholds. -/
def surgeBatch : List Sensor :=
  [reading "water_001" "water_level" "Ulsoor Lake" 85,
   reading "water_002" "water_level" "Bellandur Lake" 91,
   reading "storage_001" "storage" "Hebbal Tank" 95,
   reading "storage_002" "storage" "Yelahanka Tank" 92]

/-- Eleven deliveries, each with one lake reading above 80 and one rain gauge. -/
def elevenBatches : List (List Sensor) :=
  [81, 82, 83, 84, 85, 86, 87, 88, 89, 90, 91].map fun v =>
    [reading "rain_001" "rainfall" "Koramangala" 15,
     reading "water_001" "water_level" "Ulsoor Lake" v]

/-- A lake reading at exactly 80. -/
def lakeAt80 : Sensor := reading "water_001" "water_level" "Ulsoor Lake" 80

/-- A tank reading at exactly 90. -/
def tankAt90 : Sensor := reading "storage_001" "storage" "Hebbal Tank" 90

/-- A flow reading far above both thresholds. -/
def flowAt145 : Sensor := reading "flow_001" "flow_rate" "MG Road Drain" 145

/-- The lake reading of the specification's first scenario. -/
def lakeAt85 : Sensor := reading "water_001" "water_level" "Ulsoor Lake" 85

/-- A lake reading whose value is the number 1e21. -/
def lakeAt1e21 : Sensor :=
  reading "water_001" "water_level" "Ulsoor Lake" 1000000000000000000000

/-! ## Socket handlers -/

/-- The lifecycle events of the socket that `App` listens to. -/
inductive SocketEvent where
  | connect
  | disconnect
  | connectError
deriving DecidableEq

/-- The handlers of `connect`, `disconnect` and `connect_error`. -/
def onSocketEvent (e : SocketEvent) (st : AppState) : AppState :=
  match e with
  | .connect => { st with isConnected := true, connectionError := false }
  | .disconnect => { st with isConnected := false, connectionError := true }
  | .connectError => { st with connectionError := true, isConnected := false }

/-- Socket lifecycle events handled one after another. -/
def onSocketEvents (st : AppState) (es : List SocketEvent) : AppState :=
  es.foldl (fun s e => onSocketEvent e s) st

/-- The handler of `sensor_update` for a payload whose `sensors` field is the
list `sensors`: `setSensors(data.sensors); checkForAlerts(data.sensors)`. -/
def onSensorUpdate (h : Host) (sensors : List Sensor) (st : AppState) : AppState :=
  checkForAlerts h sensors { st with sensors := sensors }

/-- Payloads of `sensor_update` handled one after another. -/
def onSensorUpdates (h : Host) (st : AppState) (batches : List (List Sensor)) : AppState :=
  batches.foldl (fun s b => onSensorUpdate h b s) st

/-- What the `sensor_update` handler leaves behind for a payload whose
`sensors` field may be absent: the value of the `sensors` cell (`none` is
`undefined`), the alert log, and whether the handler threw. -/
structure SensorUpdateOutcome where
  sensorsCell : Option (List Sensor)
  alerts : List Alert
  threw : Bool
deriving DecidableEq

/-- The handler of `sensor_update` on a payload whose `sensors` field may be
absent.  `setSensors(data.sensors)` stores whatever the field holds; on
`undefined` the call `sensorData.forEach` in `checkForAlerts` throws a
TypeError before `setAlerts` is reached. -/
def onSensorUpdatePayload (h : Host) (sensorsField : Option (List Sensor)) (st : AppState) :
    SensorUpdateOutcome :=
  match sensorsField with
  | some sensors =>
    { sensorsCell := some (onSensorUpdate h sensors st).sensors
      alerts := (onSensorUpdate h sensors st).alerts
      threw := false }
  | none => { sensorsCell := none, alerts := st.alerts, threw := true }

/-- The handler of `valve_update`, with `valveId` and `status` the fields
`valve_id` and `status` of the event. -/
def onValveUpdate (valveId : String) (status : Rat) (st : AppState) : AppState :=
  { st with sensors := st.sensors.map fun sensor =>
      if sensor.id = valveId then { sensor with value := status } else sensor }

/-! ## Mock data -/

/-- The decimal numeral of `n`, padded with zeros on the left to `width` digits. -/
def padStart (width n : Nat) : String :=
  String.mk (List.replicate (width - (toString n).length) '0') ++ toString n

/-- `new Date(ms).toISOString()` for an instant `ms` at or after the epoch:
the civil date of the day number, then the time of day; years above 9999 are
written with a sign and six digits. -/
def toISOString (ms : Nat) : String :=
  let days := ms / 86400000
  let rest := ms % 86400000
  let z := days + 719468
  let era := z / 146097
  let doe := z % 146097
  let yoe := (doe - doe / 1460 + doe / 36524 - doe / 146096) / 365
  let doy := doe - (365 * yoe + yoe / 4 - yoe / 100)
  let mp := (5 * doy + 2) / 153
  let day := doy - (153 * mp + 2) / 5 + 1
  let month := if mp < 10 then mp + 3 else mp - 9
  let year := yoe + era * 400 + (if month ≤ 2 then 1 else 0)
  (if year ≤ 9999 then padStart 4 year else "+" ++ padStart 6 year) ++ "-" ++
    padStart 2 month ++ "-" ++ padStart 2 day ++ "T" ++
    padStart 2 (rest / 3600000) ++ ":" ++ padStart 2 (rest % 3600000 / 60000) ++ ":" ++
    padStart 2 (rest % 60000 / 1000) ++ "." ++ padStart 3 (rest % 1000) ++ "Z"

/-- The array `mockSensors` of `initializeMockData`; each entry reads the
clock once for its timestamp, starting at read `tick`.  A decimal literal
stands for the double nearest to it, which lies on the same side of every
bound used below. -/
def mockSensors (h : Host) (tick : Nat) : List Sensor :=
  [{ id := "rain_001", type := "rainfall", location := "Koramangala", lat := 12.9352,
     lng := 77.6245, value := 15.2, status := "active",
     timestamp := toISOString (h.clock tick) },
   { id := "rain_002", type := "rainfall", location := "Indiranagar", lat := 12.9719,
     lng := 77.6412, value := 8.7, status := "active",
     timestamp := toISOString (h.clock (tick + 1)) },
   { id := "water_001", type := "water_level", location := "Ulsoor Lake", lat := 12.9716,
     lng := 77.6162, value := 65.3, status := "active",
     timestamp := toISOString (h.clock (tick + 2)) },
   { id := "water_002", type := "water_level", location := "Bellandur Lake", lat := 12.9255,
     lng := 77.6688, value := 78.9, status := "active",
     timestamp := toISOString (h.clock (tick + 3)) },
   { id := "flow_001", type := "flow_rate", location := "MG Road Drain", lat := 12.9716,
     lng := 77.6101, value := 145.6, status := "active",
     timestamp := toISOString (h.clock (tick + 4)) },
   { id := "flow_002", type := "flow_rate", location := "Electronic City Drain",
     lat := 12.8456, lng := 77.6603, value := 132.4, status := "active",
     timestamp := toISOString (h.clock (tick + 5)) },
   { id := "storage_001", type := "storage", location := "Hebbal Tank", lat := 13.0359,
     lng := 77.5970, value := 72.1, status := "active",
     timestamp := toISOString (h.clock (tick + 6)) },
   { id := "storage_002", type := "storage", location := "Yelahanka Tank", lat := 13.1007,
     lng := 77.5963, value := 58.7, status := "active",
     timestamp := toISOString (h.clock (tick + 7)) },
   { id := "valve_001", type := "valve", location := "Whitefield Pump", lat := 12.9698,
     lng := 77.7500, value := 1, status := "active",
     timestamp := toISOString (h.clock (tick + 8)) },
   { id := "valve_002", type := "valve", location := "Marathahalli Pump", lat := 12.9581,
     lng := 77.7015, value := 0, status := "active",
     timestamp := toISOString (h.clock (tick + 9)) }]

/-- The array `mockForecast`. -/
def mockForecast : List Forecast :=
  [{ date := "2024-01-15", rainfall := 12.5, probability := 75 },
   { date := "2024-01-16", rainfall := 8.2, probability := 60 },
   { date := "2024-01-17", rainfall := 15.8, probability := 85 },
   { date := "2024-01-18", rainfall := 5.1, probability := 40 },
   { date := "2024-01-19", rainfall := 18.3, probability := 90 },
   { date := "2024-01-20", rainfall := 7.6, probability := 55 },
   { date := "2024-01-21", rainfall := 11.2, probability := 70 }]

/-- The array `mockAiDecisions`. -/
def mockAiDecisions : List AiDecision :=
  [{ type := "recharge_wells", priority := "high",
     message := "Moderate rainfall detected. Directing water to recharge wells for optimal groundwater recharge.",
     action := "activate_recharge_wells", confidence := 0.85 },
   { type := "normal_operation", priority := "low",
     message := "All systems operating within normal parameters. Continue monitoring.",
     action := "monitor", confidence := 0.95 }]

/-- `initializeMockData()`: the three mock arrays are stored and
`checkForAlerts` runs on the mock sensors. -/
def initializeMockData (h : Host) (st : AppState) : AppState :=
  checkForAlerts h (mockSensors h st.tick)
    { st with sensors := mockSensors h st.tick, forecast := mockForecast,
              aiDecisions := mockAiDecisions, tick := st.tick + 10 }

/-- The branch of the mount effect taken when the socket could not be
created: `setConnectionError(true); initializeMockData()`. -/
def mountWithoutSocket (h : Host) (st : AppState) : AppState :=
  initializeMockData h { st with connectionError := true }

/-! ## Fetches and valve commands -/

/-- `fetchSensors()` once its request has settled.  `response` is the parsed
body of an ok response, `none` when the request threw or the response was not
ok.  `closureSensors` is the value of `sensors` in the render whose
`fetchSensors` is running: the `catch` branch tests that variable, not the
current state. -/
def fetchSensors (h : Host) (closureSensors : List Sensor) (response : Option (List Sensor))
    (st : AppState) : AppState :=
  match response with
  | some data =>
    { checkForAlerts h data { st with sensors := data } with connectionError := false }
  | none =>
    if closureSensors.length = 0 then
      initializeMockData h { st with connectionError := true }
    else { st with connectionError := true }

/-- The call `fetchSensors()` of the mount effect.  The effect has no
dependencies, so it runs the `fetchSensors` of the first render, in which
`sensors` is the initial `[]`. -/
def fetchSensorsOnMount (h : Host) (response : Option (List Sensor)) (st : AppState) :
    AppState :=
  fetchSensors h initialState.sensors response st

/-- `fetchForecast()` once its request has settled. -/
def fetchForecast (response : Option (List Forecast)) (st : AppState) : AppState :=
  match response with
  | some data => { st with forecast := data }
  | none => { st with forecast := mockForecast }

/-- `fetchAiDecisions()` once its request has settled. -/
def fetchAiDecisions (response : Option (List AiDecision)) (st : AppState) : AppState :=
  match response with
  | some data => { st with aiDecisions := data }
  | none => { st with aiDecisions := mockAiDecisions }

/-- How the request of `controlValve` settles. -/
inductive ControlOutcome where
  | ok
  | notOk
  | thrown
deriving DecidableEq

/-- What `controlValve` does besides touching the state. -/
inductive Effect where
  | post (valveId action : String)
  | log (message : String)
  | logError
  | fetchAiDecisions
deriving DecidableEq

/-- `controlValve(valveId, action)` up to its `await`: the request is sent,
no state cell is written. -/
def controlValveSubmit (valveId action : String) (st : AppState) : AppState × List Effect :=
  (st, [Effect.post valveId action])

/-- `controlValve(valveId, action)` after its `await`: on an ok response a
log line and a call of `fetchAiDecisions`, on a thrown error an error log,
nothing otherwise. -/
def controlValveSettle (valveId action : String) (outcome : ControlOutcome) (st : AppState) :
    AppState × List Effect :=
  match outcome with
  | .ok =>
    (st, [Effect.log ("Valve " ++ valveId ++ " " ++ action ++ " successful"),
          Effect.fetchAiDecisions])
  | .notOk => (st, [])
  | .thrown => (st, [Effect.logError])

/-- `controlValve(valveId, action)` from call to completion. -/
def controlValve (valveId action : String) (outcome : ControlOutcome) (st : AppState) :
    AppState × List Effect :=
  let sent := controlValveSubmit valveId action st
  let done := controlValveSettle valveId action outcome sent.1
  (done.1, sent.2 ++ done.2)

/-- The value of the first sensor with id `valveId`, if there is one. -/
def valueOf (valveId : String) (sensors : List Sensor) : Option Rat :=
  (sensors.find? fun s => s.id = valveId).map Sensor.value

/-- A closed pump of the mock data. -/
def valveClosed : Sensor := reading "valve_002" "valve" "Marathahalli Pump" 0

/-- A state whose sensor list holds a drain and the closed pump. -/
def pumpState : AppState := { initialState with sensors := [flowAt145, valveClosed] }

/-- Five stream failures in a row. -/
def fiveFailures : List SocketEvent :=
  [.connectError, .connectError, .disconnect, .connectError, .connectError]

/-- The state after a `sensor_update` carrying the lake at 80 and the drain
has been handled from the initial state. -/
def liveState : AppState := onSensorUpdate sampleHost [lakeAt80, flowAt145] initialState

/-! ## The Dashboard and Alerts views -/

/-- `getSensorColor(type, value)` of `Dashboard.js`. -/
def getSensorColor (type : String) (value : Rat) : String :=
  if type = "rainfall" then
    if value > 15 then "text-red-500" else if value > 5 then "text-yellow-500"
    else "text-green-500"
  else if type = "water_level" then
    if value > 80 then "text-red-500" else if value > 60 then "text-yellow-500"
    else "text-green-500"
  else if type = "flow_rate" then
    if value > 150 then "text-red-500" else if value > 100 then "text-yellow-500"
    else "text-green-500"
  else if type = "flow_velocity" then
    if value > 50 then "text-red-500" else if value > 30 then "text-yellow-500"
    else "text-green-500"
  else if type = "storage" then
    if value > 90 then "text-red-500" else if value > 70 then "text-yellow-500"
    else "text-green-500"
  else if type = "valve" then
    if value = 1 then "text-green-500" else "text-gray-500"
  else "text-blue-500"

/-- The count `criticalSensors` of `SystemOverview` in `Dashboard.js`, shown
as `Critical Alerts`. -/
def criticalSensors (sensors : List Sensor) : Nat :=
  (sensors.filter fun s =>
    if s.type = "water_level" ∨ s.type = "storage" then decide (s.value > 80)
    else false).length

/-- The `Critical Alerts` count of the Alerts view. -/
def criticalCount (alerts : List Alert) : Nat :=
  (alerts.filter fun a => decide (a.type = "critical")).length

/-- The `Warnings` count of the Alerts view. -/
def warningCount (alerts : List Alert) : Nat :=
  (alerts.filter fun a => decide (a.type = "warning")).length

/-- The `useState` cells of the Alerts view; `valveControls` is an object
keyed by valve id, `none` standing for an absent key. -/
structure AlertsViewState where
  valveControls : String → Option String
  isLoading : Bool

/-- Initial values of the cells of the Alerts view. -/
def initialAlertsView : AlertsViewState :=
  { valveControls := fun _ => none, isLoading := false }

namespace Alerts

/-- `controlValve(valveId, action)` of `Alert.js`, from call to completion:
`isLoading` is raised, on an ok response `valveControls` becomes
`{...prev, [valveId]: action}`, and `finally` lowers `isLoading`. -/
def controlValve (valveId action : String) (outcome : ControlOutcome)
    (st : AlertsViewState) : AlertsViewState :=
  let loading : AlertsViewState := { st with isLoading := true }
  let settled : AlertsViewState :=
    match outcome with
    | .ok =>
      { loading with
        valveControls := fun key => if key = valveId then some action
          else loading.valveControls key }
    | .notOk => loading
    | .thrown => loading
  { settled with isLoading := false }

/-- Calls of `controlValve` made one after another; the buttons are disabled
while `isLoading` holds, so a call starts after the previous one has completed. -/
def controlValves (st : AlertsViewState) (calls : List (String × String × ControlOutcome)) :
    AlertsViewState :=
  calls.foldl (fun s c => controlValve c.1 c.2.1 c.2.2 s) st

end Alerts

/-- The action of the most recent call for valve `v` whose response was ok. -/
def lastConfirmed (v : String) (calls : List (String × String × ControlOutcome)) :
    Option String :=
  ((calls.filter fun c => decide (c.1 = v ∧ c.2.2 = ControlOutcome.ok)).getLast?).map
    fun c => c.2.1

/-- Ten lakes above 80 in one batch. -/
def tenLakes : List Sensor :=
  ["water_001", "water_002", "water_003", "water_004", "water_005", "water_006",
   "water_007", "water_008", "water_009", "water_010"].map fun id =>
    reading id "water_level" "Lake" 85

/-! ## Structure of `newAlerts` -/

theorem forEachBody_nil (h : Host) (t : Nat) (s : Sensor) :
    forEachBody h ([], t) s =
      if s.type = "water_level" ∧ s.value > 80 then ([warningAlert h t s], t + 2)
      else if s.type = "storage" ∧ s.value > 90 then ([criticalAlert h t s], t + 2)
      else ([], t) := by
  unfold forEachBody
  by_cases hw : s.type = "water_level" ∧ s.value > 80
  · have hs : ¬ (s.type = "storage" ∧ s.value > 90) := by
      rintro ⟨h1, -⟩
      rw [hw.1] at h1
      exact absurd h1 (by decide)
    simp [hw, hs]
  · simp [hw]

theorem forEachBody_acc (h : Host) (acc : List Alert × Nat) (s : Sensor) :
    forEachBody h acc s =
      (acc.1 ++ (forEachBody h ([], acc.2) s).1, (forEachBody h ([], acc.2) s).2) := by
  unfold forEachBody
  by_cases hw : s.type = "water_level" ∧ s.value > 80 <;>
    by_cases hs : s.type = "storage" ∧ s.value > 90 <;> simp [hw, hs]

theorem foldl_forEachBody (h : Host) (xs : List Sensor) (acc : List Alert × Nat) :
    xs.foldl (forEachBody h) acc =
      (acc.1 ++ (newAlerts h acc.2 xs).1, (newAlerts h acc.2 xs).2) := by
  induction xs generalizing acc with
  | nil => simp [newAlerts]
  | cons s xs ih =>
    simp only [newAlerts, List.foldl_cons]
    rw [ih (forEachBody h acc s), ih (forEachBody h ([], acc.2) s)]
    rw [forEachBody_acc h acc s]
    simp [List.append_assoc]

theorem newAlerts_nil (h : Host) (t : Nat) : newAlerts h t [] = ([], t) := rfl

theorem newAlerts_cons (h : Host) (t : Nat) (s : Sensor) (xs : List Sensor) :
    newAlerts h t (s :: xs) =
      ((forEachBody h ([], t) s).1 ++ (newAlerts h (forEachBody h ([], t) s).2 xs).1,
        (newAlerts h (forEachBody h ([], t) s).2 xs).2) := by
  show (s :: xs).foldl (forEachBody h) ([], t) = _
  rw [List.foldl_cons, foldl_forEachBody]

theorem forEachBody_sensors (h : Host) (t : Nat) (s : Sensor) :
    (forEachBody h ([], t) s).1.map Alert.sensor = if Qualifies s then [s] else [] := by
  rw [forEachBody_nil]
  unfold Qualifies
  by_cases hw : s.type = "water_level" ∧ s.value > 80
  · simp [hw, warningAlert]
  · by_cases hs : s.type = "storage" ∧ s.value > 90
    · simp [hw, hs, criticalAlert]
    · simp [hw, hs]

theorem newAlerts_sensors (h : Host) (t : Nat) (xs : List Sensor) :
    (newAlerts h t xs).1.map Alert.sensor = xs.filter (fun s => decide (Qualifies s)) := by
  induction xs generalizing t with
  | nil => simp [newAlerts_nil]
  | cons s xs ih =>
    rw [newAlerts_cons, List.map_append, forEachBody_sensors, ih]
    by_cases hq : Qualifies s <;> simp [hq, List.filter_cons]

theorem newAlerts_length (h : Host) (t : Nat) (xs : List Sensor) :
    (newAlerts h t xs).1.length = (xs.filter (fun s => decide (Qualifies s))).length := by
  rw [← newAlerts_sensors h t xs, List.length_map]

theorem checkForAlerts_alerts (h : Host) (xs : List Sensor) (st : AppState) :
    (checkForAlerts h xs st).alerts =
      if (newAlerts h st.tick xs).1 = [] then st.alerts
      else (newAlerts h st.tick xs).1 ++ st.alerts.take 9 := by
  unfold checkForAlerts
  by_cases hn : (newAlerts h st.tick xs).1 = []
  · simp [hn]
  · have : 0 < (newAlerts h st.tick xs).1.length := List.length_pos.mpr hn
    simp [hn, this]

theorem checkForAlerts_tick (h : Host) (xs : List Sensor) (st : AppState) :
    (checkForAlerts h xs st).tick = (newAlerts h st.tick xs).2 := by
  unfold checkForAlerts
  by_cases hn : (newAlerts h st.tick xs).1.length > 0 <;> simp [hn]

/-! ## The retention bound -/

theorem checkForAlerts_length (h : Host) (xs : List Sensor) (st : AppState) :
    (checkForAlerts h xs st).alerts.length =
      if (newAlerts h st.tick xs).1 = [] then st.alerts.length
      else (xs.filter (fun s => decide (Qualifies s))).length + min 9 st.alerts.length := by
  rw [checkForAlerts_alerts]
  by_cases hn : (newAlerts h st.tick xs).1 = []
  · simp [hn]
  · simp [hn, newAlerts_length]

/-- C1 (the code against its own comment `Keep last 10 alerts`): three
deliveries of a batch with four qualifying readings, handled from the empty
log, leave 12 alerts in the log. -/
theorem C1_log_exceeds_ten :
    (checkAll sampleHost initialState [surgeBatch, surgeBatch, surgeBatch]).alerts.length
      = 12 := by
  decide

/-! ## Batches handled one after another -/

theorem newAlerts_append (h : Host) (t : Nat) (xs ys : List Sensor) :
    newAlerts h t (xs ++ ys) =
      ((newAlerts h t xs).1 ++ (newAlerts h (newAlerts h t xs).2 ys).1,
        (newAlerts h (newAlerts h t xs).2 ys).2) := by
  show (xs ++ ys).foldl (forEachBody h) ([], t) = _
  rw [List.foldl_append, foldl_forEachBody h ys]
  rfl

theorem generated_eq_newAlerts (h : Host) (t : Nat) (bs : List (List Sensor)) :
    generated h t bs = (newAlerts h t bs.flatten).1 := by
  induction bs generalizing t with
  | nil => rfl
  | cons b bs ih =>
    rw [generated, List.flatten_cons, newAlerts_append, ih]

theorem forEachBody_timestamps (h : Host) (t : Nat) (s : Sensor) :
    (forEachBody h ([], t) s).1.map Alert.timestamp =
        (if Qualifies s then [h.clock (t + 1)] else []) ∧
      (forEachBody h ([], t) s).2 = t + 2 * (if Qualifies s then 1 else 0) := by
  rw [forEachBody_nil]
  unfold Qualifies
  by_cases hw : s.type = "water_level" ∧ s.value > 80
  · simp [hw, warningAlert]
  · by_cases hs : s.type = "storage" ∧ s.value > 90
    · simp [hw, hs, criticalAlert]
    · simp [hw, hs]

theorem newAlerts_timestamps (h : Host) (t : Nat) (xs : List Sensor) :
    (newAlerts h t xs).1.map Alert.timestamp =
        (List.range (newAlerts h t xs).1.length).map (fun i => h.clock (t + 2 * i + 1)) ∧
      (newAlerts h t xs).2 = t + 2 * (newAlerts h t xs).1.length := by
  induction xs generalizing t with
  | nil => simp [newAlerts_nil]
  | cons s xs ih =>
    obtain ⟨h1, h2⟩ := forEachBody_timestamps h t s
    have hl : (forEachBody h ([], t) s).1.length = if Qualifies s then 1 else 0 := by
      have := congrArg List.length h1
      rw [List.length_map] at this
      rw [this]; split <;> rfl
    obtain ⟨i1, i2⟩ := ih (forEachBody h ([], t) s).2
    rw [newAlerts_cons]
    simp only [List.map_append, List.length_append]
    rw [i1, i2, h1, h2, hl]
    by_cases hq : Qualifies s
    · simp only [hq, if_true]
      refine ⟨?_, by omega⟩
      rw [Nat.add_comm 1 _, List.range_succ_eq_map]
      simp only [List.map_cons, List.map_map, List.singleton_append]
      refine congrArg₂ _ rfl (List.map_congr_left fun i _ => ?_)
      simp only [Function.comp, Nat.succ_eq_add_one]
      congr 1; omega
    · simp [hq]

theorem take_append_cons_take {α : Type} (X L : List α) (a : α) :
    (X ++ a :: L.take 9).take 10 = (X ++ a :: L).take 10 := by
  rw [List.take_append_eq_append_take, List.take_append_eq_append_take]
  congr 1
  rcases hk : 10 - X.length with _ | k
  · simp
  · have : k ≤ 9 := by omega
    simp [List.take_take, this]

theorem checkAll_single (h : Host) (bs : List (List Sensor)) (st : AppState)
    (hone : ∀ b ∈ bs, (b.filter (fun s => decide (Qualifies s))).length = 1)
    (hst : st.alerts.length ≤ 10) :
    (checkAll h st bs).alerts = ((generated h st.tick bs).reverse ++ st.alerts).take 10 := by
  induction bs generalizing st with
  | nil => simp [checkAll, generated, List.take_of_length_le hst]
  | cons b bs ih =>
    have hb : (newAlerts h st.tick b).1.length = 1 := by
      rw [newAlerts_length]; exact hone b (List.mem_cons_self _ _)
    obtain ⟨a, ha⟩ := List.length_eq_one.mp hb
    have hal : (checkForAlerts h b st).alerts = a :: st.alerts.take 9 := by
      rw [checkForAlerts_alerts, ha]; simp
    have hlen : (checkForAlerts h b st).alerts.length ≤ 10 := by
      rw [hal]; simp only [List.length_cons, List.length_take]; omega
    have step := ih (checkForAlerts h b st)
      (fun b' hb' => hone b' (List.mem_cons_of_mem _ hb')) hlen
    show (checkAll h (checkForAlerts h b st) bs).alerts = _
    rw [step, hal, checkForAlerts_tick, take_append_cons_take, generated, ha]
    simp [List.reverse_cons, List.append_assoc]

theorem generated_length_single (h : Host) (bs : List (List Sensor)) (t : Nat)
    (hone : ∀ b ∈ bs, (b.filter (fun s => decide (Qualifies s))).length = 1) :
    (generated h t bs).length = bs.length := by
  induction bs generalizing t with
  | nil => rfl
  | cons b bs ih =>
    rw [generated, List.length_append, newAlerts_length, hone b (List.mem_cons_self _ _),
      ih _ (fun b' hb' => hone b' (List.mem_cons_of_mem _ hb')), List.length_cons]
    omega

theorem generated_nodup (h : Host) (t : Nat) (bs : List (List Sensor))
    (hclock : Function.Injective h.clock) : (generated h t bs).Nodup := by
  apply List.Nodup.of_map Alert.timestamp
  rw [generated_eq_newAlerts, (newAlerts_timestamps h t bs.flatten).1]
  refine List.Nodup.map (fun i j hij => ?_) (List.nodup_range _)
  have := hclock hij
  omega

/-- C2: after n ≥ 11 batches with exactly one qualifying reading each, handled
from the empty log, the log has length 10 and is the ten most recently
generated alerts, newest first: its head is the alert of the n-th batch, its
i-th entry is the alert of batch n - i, never that of the 1st batch, and when
the clock tells the alerts apart the 1st batch's alert is no member of it. -/
theorem C2_ten_most_recent (h : Host) (batches : List (List Sensor))
    (hone : ∀ b ∈ batches, (b.filter (fun s => decide (Qualifies s))).length = 1)
    (hn : 11 ≤ batches.length) :
    (generated h 0 batches).length = batches.length ∧
    (checkAll h initialState batches).alerts.length = 10 ∧
    (checkAll h initialState batches).alerts = (generated h 0 batches).reverse.take 10 ∧
    (checkAll h initialState batches).alerts.head? = (generated h 0 batches).getLast? ∧
    (∀ i, i < 10 →
      (checkAll h initialState batches).alerts[i]?
          = (generated h 0 batches)[batches.length - 1 - i]? ∧
        0 < batches.length - 1 - i) ∧
    (Function.Injective h.clock → ∀ a, (generated h 0 batches).head? = some a →
      a ∉ (checkAll h initialState batches).alerts) := by
  have hlen := generated_length_single h batches 0 hone
  have hlog : (checkAll h initialState batches).alerts
      = (generated h 0 batches).reverse.take 10 := by
    have := checkAll_single h batches initialState hone (by simp [initialState])
    simpa [initialState] using this
  refine ⟨hlen, ?_, hlog, ?_, ?_, ?_⟩
  · rw [hlog, List.length_take, List.length_reverse, hlen]; omega
  · rw [hlog, List.head?_take, List.head?_reverse]; simp
  · intro i hi
    refine ⟨?_, by omega⟩
    rw [hlog, List.getElem?_take_of_lt hi, List.getElem?_reverse (by rw [hlen]; omega), hlen]
  · intro hclock a ha hmem
    have hnd := generated_nodup h 0 batches hclock
    rw [hlog] at hmem
    cases hg : generated h 0 batches with
    | nil => rw [hg] at ha; simp at ha
    | cons x rest =>
      rw [hg] at ha hnd hmem hlen
      simp only [List.head?_cons, Option.some.injEq] at ha
      subst ha
      have hr : 10 ≤ rest.reverse.length := by
        simp only [List.length_cons] at hlen
        rw [List.length_reverse]; omega
      rw [List.reverse_cons, List.take_append_of_le_length hr] at hmem
      have : x ∈ rest := List.mem_reverse.mp (List.take_subset _ _ hmem)
      exact (List.nodup_cons.mp hnd).1 this

/-- C2 at eleven concrete deliveries. -/
theorem C2_ten_most_recent_witness :
    (checkAll sampleHost initialState elevenBatches).alerts.length = 10 ∧
    (checkAll sampleHost initialState elevenBatches).alerts
      = (generated sampleHost 0 elevenBatches).reverse.take 10 :=
  have hc := C2_ten_most_recent sampleHost elevenBatches (by decide) (by decide)
  ⟨hc.2.1, hc.2.2.1⟩

/-! ## The alert rule -/

theorem mem_newAlerts (h : Host) (xs : List Sensor) (t : Nat) (a : Alert)
    (ha : a ∈ (newAlerts h t xs).1) :
    ∃ s ∈ xs, ∃ k, t ≤ k ∧
      ((s.type = "water_level" ∧ s.value > 80 ∧ a = warningAlert h k s) ∨
        (s.type = "storage" ∧ s.value > 90 ∧ a = criticalAlert h k s)) := by
  induction xs generalizing t with
  | nil => simp [newAlerts_nil] at ha
  | cons s xs ih =>
    rw [newAlerts_cons, List.mem_append] at ha
    rcases ha with ha | ha
    · refine ⟨s, List.mem_cons_self _ _, t, le_refl _, ?_⟩
      rw [forEachBody_nil] at ha
      by_cases hw : s.type = "water_level" ∧ s.value > 80
      · rw [if_pos hw] at ha
        exact Or.inl ⟨hw.1, hw.2, List.mem_singleton.mp ha⟩
      · by_cases hs : s.type = "storage" ∧ s.value > 90
        · rw [if_neg hw, if_pos hs] at ha
          exact Or.inr ⟨hs.1, hs.2, List.mem_singleton.mp ha⟩
        · rw [if_neg hw, if_neg hs] at ha
          exact absurd ha (List.not_mem_nil _)
    · obtain ⟨s', hs', k, hk, hcase⟩ := ih _ ha
      refine ⟨s', List.mem_cons_of_mem _ hs', k, ?_, hcase⟩
      have := (forEachBody_timestamps h t s).2
      omega

theorem exists_alert_of_qualifies (h : Host) (xs : List Sensor) (t : Nat) (s : Sensor)
    (hs : s ∈ xs) (hq : Qualifies s) : ∃ a ∈ (newAlerts h t xs).1, a.sensor = s := by
  have : s ∈ (newAlerts h t xs).1.map Alert.sensor := by
    rw [newAlerts_sensors]
    exact List.mem_filter.mpr ⟨hs, by simpa using hq⟩
  obtain ⟨a, ha, hsa⟩ := List.mem_map.mp this
  exact ⟨a, ha, hsa⟩

theorem qualifies_of_alert (h : Host) (xs : List Sensor) (t : Nat) (a : Alert)
    (ha : a ∈ (newAlerts h t xs).1) : Qualifies a.sensor := by
  have : a.sensor ∈ (newAlerts h t xs).1.map Alert.sensor := List.mem_map_of_mem _ ha
  rw [newAlerts_sensors] at this
  simpa using (List.mem_filter.mp this).2

/-- C3: in every batch, a `water_level` reading gets an alert exactly when its
value is strictly above 80, every alert for it has severity `warning`, and on
its own the reading yields the one `warning` alert or nothing. -/
theorem C3_water_level_rule (h : Host) (t : Nat) (xs : List Sensor) (s : Sensor)
    (hs : s ∈ xs) (hty : s.type = "water_level") :
    ((∃ a ∈ (newAlerts h t xs).1, a.sensor = s) ↔ s.value > 80) ∧
    (∀ a ∈ (newAlerts h t xs).1, a.sensor = s → a.type = "warning") ∧
    (newAlerts h t [s]).1 = (if s.value > 80 then [warningAlert h t s] else []) ∧
    (warningAlert h t s).type = "warning" := by
  have hne : s.type ≠ "storage" := by rw [hty]; decide
  refine ⟨⟨?_, ?_⟩, ?_, ?_, rfl⟩
  · rintro ⟨a, ha, rfl⟩
    rcases qualifies_of_alert h xs t a ha with hq | hq
    · exact hq.2
    · exact absurd hq.1 hne
  · intro hv
    exact exists_alert_of_qualifies h xs t s hs (Or.inl ⟨hty, hv⟩)
  · intro a ha hsa
    obtain ⟨s', -, k, -, hcase⟩ := mem_newAlerts h xs t a ha
    rcases hcase with ⟨-, -, rfl⟩ | ⟨h1, -, rfl⟩
    · rfl
    · exact absurd (by rw [← hsa]; exact h1) hne
  · rw [newAlerts_cons, newAlerts_nil, forEachBody_nil]
    by_cases hv : s.value > 80 <;> simp [hty, hv]

/-- C3 at a lake reading of exactly 80: no alert. -/
theorem C3_water_level_rule_witness :
    ¬ ∃ a ∈ (newAlerts sampleHost 0 [flowAt145, lakeAt80]).1, a.sensor = lakeAt80 :=
  fun hex =>
    absurd ((C3_water_level_rule sampleHost 0 [flowAt145, lakeAt80] lakeAt80
      (by decide) rfl).1.mp hex) (by decide)

/-- C4: in every batch, a `storage` reading gets an alert exactly when its
value is strictly above 90, every alert for it has severity `critical`, and on
its own the reading yields the one `critical` alert or nothing. -/
theorem C4_storage_rule (h : Host) (t : Nat) (xs : List Sensor) (s : Sensor)
    (hs : s ∈ xs) (hty : s.type = "storage") :
    ((∃ a ∈ (newAlerts h t xs).1, a.sensor = s) ↔ s.value > 90) ∧
    (∀ a ∈ (newAlerts h t xs).1, a.sensor = s → a.type = "critical") ∧
    (newAlerts h t [s]).1 = (if s.value > 90 then [criticalAlert h t s] else []) ∧
    (criticalAlert h t s).type = "critical" := by
  have hne : s.type ≠ "water_level" := by rw [hty]; decide
  refine ⟨⟨?_, ?_⟩, ?_, ?_, rfl⟩
  · rintro ⟨a, ha, rfl⟩
    rcases qualifies_of_alert h xs t a ha with hq | hq
    · exact absurd hq.1 hne
    · exact hq.2
  · intro hv
    exact exists_alert_of_qualifies h xs t s hs (Or.inr ⟨hty, hv⟩)
  · intro a ha hsa
    obtain ⟨s', -, k, -, hcase⟩ := mem_newAlerts h xs t a ha
    rcases hcase with ⟨h1, -, rfl⟩ | ⟨-, -, rfl⟩
    · exact absurd (by rw [← hsa]; exact h1) hne
    · rfl
  · rw [newAlerts_cons, newAlerts_nil, forEachBody_nil]
    by_cases hv : s.value > 90 <;> simp [hty, hv]

/-- C4 at a tank reading of exactly 90: no alert. -/
theorem C4_storage_rule_witness :
    ¬ ∃ a ∈ (newAlerts sampleHost 0 [tankAt90, flowAt145]).1, a.sensor = tankAt90 :=
  fun hex =>
    absurd ((C4_storage_rule sampleHost 0 [tankAt90, flowAt145] tankAt90
      (by decide) rfl).1.mp hex) (by decide)

/-- C5: a reading whose type is neither `water_level` nor `storage` gets no
alert, whatever its value: none in any batch, and none on its own, where the
alert log is left as it was. -/
theorem C5_other_types_silent (h : Host) (s : Sensor)
    (hw : s.type ≠ "water_level") (hst : s.type ≠ "storage") :
    (∀ (xs : List Sensor) (t : Nat), ∀ a ∈ (newAlerts h t xs).1, a.sensor ≠ s) ∧
    (∀ t, (newAlerts h t [s]).1 = []) ∧
    (∀ st : AppState, (checkForAlerts h [s] st).alerts = st.alerts) := by
  have hnil : ∀ t, (newAlerts h t [s]).1 = [] := by
    intro t
    rw [newAlerts_cons, newAlerts_nil, forEachBody_nil]
    simp [hw, hst]
  refine ⟨?_, hnil, ?_⟩
  · intro xs t a ha hsa
    rcases qualifies_of_alert h xs t a ha with hq | hq
    · exact hw (by rw [← hsa]; exact hq.1)
    · exact hst (by rw [← hsa]; exact hq.1)
  · intro st
    rw [checkForAlerts_alerts, hnil]; simp

/-- C5 at a flow reading of 145. -/
theorem C5_other_types_silent_witness :
    (newAlerts sampleHost 0 [flowAt145]).1 = [] ∧
      (checkForAlerts sampleHost [flowAt145] initialState).alerts = [] :=
  have hc := C5_other_types_silent sampleHost flowAt145 (by decide) (by decide)
  ⟨hc.2.1 0, hc.2.2 initialState⟩

/-- C6: the number of alerts generated from a batch is the number of its
qualifying readings; the source sensors of the alerts are the qualifying
readings themselves, and a reading on its own yields one alert when it
qualifies and none otherwise. -/
theorem C6_one_alert_per_qualifying_reading (h : Host) (t : Nat) (xs : List Sensor) :
    (newAlerts h t xs).1.length = (xs.filter (fun s => decide (Qualifies s))).length ∧
    (newAlerts h t xs).1.map Alert.sensor = xs.filter (fun s => decide (Qualifies s)) ∧
    (∀ s : Sensor, (newAlerts h t [s]).1.length = if Qualifies s then 1 else 0) := by
  refine ⟨newAlerts_length h t xs, newAlerts_sensors h t xs, fun s => ?_⟩
  rw [newAlerts_length]
  by_cases hq : Qualifies s <;> simp [hq]

/-- C7: the alerts of a batch stand at the head of the new log in the order of
their source readings in the batch: the first k entries of the log, k the
number of qualifying readings, have as source sensors the qualifying readings
in batch order, whatever their severities. -/
theorem C7_batch_order_kept (h : Host) (xs : List Sensor) (st : AppState) :
    ((checkForAlerts h xs st).alerts.take
        (xs.filter (fun s => decide (Qualifies s))).length).map Alert.sensor
      = xs.filter (fun s => decide (Qualifies s)) := by
  rw [checkForAlerts_alerts]
  by_cases hn : (newAlerts h st.tick xs).1 = []
  · have h0 : xs.filter (fun s => decide (Qualifies s)) = [] := by
      rw [← newAlerts_sensors h st.tick xs, hn]; rfl
    simp [hn, h0]
  · rw [if_neg hn, ← newAlerts_length h st.tick xs, List.take_left, newAlerts_sensors]

/-- C8: when a batch yields at least one alert, the new log is the new alerts
followed by the first nine entries of the prior log, a prefix of it; the prior
alerts dropped are those from position nine on. -/
theorem C8_new_alerts_then_kept_prior (h : Host) (xs : List Sensor) (st : AppState)
    (hne : (newAlerts h st.tick xs).1 ≠ []) :
    (checkForAlerts h xs st).alerts = (newAlerts h st.tick xs).1 ++ st.alerts.take 9 ∧
    st.alerts.take 9 <+: st.alerts ∧
    st.alerts = st.alerts.take 9 ++ st.alerts.drop 9 := by
  refine ⟨?_, List.take_prefix _ _, (List.take_append_drop _ _).symm⟩
  rw [checkForAlerts_alerts, if_neg hne]

/-- C8 at the surge batch arriving on a log that already holds eight alerts. -/
theorem C8_new_alerts_then_kept_prior_witness :
    (checkForAlerts sampleHost surgeBatch
        (checkAll sampleHost initialState [surgeBatch, surgeBatch])).alerts
      = (newAlerts sampleHost
            (checkAll sampleHost initialState [surgeBatch, surgeBatch]).tick surgeBatch).1
          ++ (checkAll sampleHost initialState [surgeBatch, surgeBatch]).alerts.take 9 :=
  (C8_new_alerts_then_kept_prior sampleHost surgeBatch
    (checkAll sampleHost initialState [surgeBatch, surgeBatch])
    (fun hnil => absurd (congrArg List.length hnil) (by decide))).1

/-! ## Decimal digits and `toFixed(1)` -/

theorem toDigitsCore_append (b : Nat) (fuel n : Nat) (ds : List Char) :
    Nat.toDigitsCore b fuel n ds = Nat.toDigitsCore b fuel n [] ++ ds := by
  induction fuel generalizing n ds with
  | zero => simp [Nat.toDigitsCore]
  | succ fuel ih =>
    simp only [Nat.toDigitsCore]
    by_cases h0 : n / b = 0
    · simp [h0]
    · simp only [h0, if_false]
      rw [ih (n / b) (Nat.digitChar (n % b) :: ds), ih (n / b) [Nat.digitChar (n % b)]]
      simp

theorem toDigitsCore_fuel (b : Nat) (hb : 2 ≤ b) (f1 f2 n : Nat) (ds : List Char)
    (h1 : n < f1) (h2 : n < f2) :
    Nat.toDigitsCore b f1 n ds = Nat.toDigitsCore b f2 n ds := by
  induction f1 generalizing f2 n ds with
  | zero => omega
  | succ f1 ih =>
    cases f2 with
    | zero => omega
    | succ f2 =>
      simp only [Nat.toDigitsCore]
      by_cases h0 : n / b = 0
      · simp [h0]
      · simp only [h0, if_false]
        have hpos : 0 < n := by
          rcases Nat.eq_zero_or_pos n with hz | hz
          · subst hz; simp at h0
          · exact hz
        have hlt : n / b < n := Nat.div_lt_self hpos (by omega)
        exact ih f2 (n / b) _ (by omega) (by omega)

theorem toDigits_small (n : Nat) (hn : n < 10) : Nat.toDigits 10 n = [Nat.digitChar n] := by
  have h0 : n / 10 = 0 := Nat.div_eq_of_lt hn
  simp [Nat.toDigits, Nat.toDigitsCore, h0, Nat.mod_eq_of_lt hn]

theorem toDigitsCore_succ (b fuel n : Nat) (ds : List Char) :
    Nat.toDigitsCore b (fuel + 1) n ds =
      if n / b = 0 then Nat.digitChar (n % b) :: ds
      else Nat.toDigitsCore b fuel (n / b) (Nat.digitChar (n % b) :: ds) := by
  simp [Nat.toDigitsCore]

theorem toDigits_large (n : Nat) (hn : 10 ≤ n) :
    Nat.toDigits 10 n = Nat.toDigits 10 (n / 10) ++ [Nat.digitChar (n % 10)] := by
  have h0 : n / 10 ≠ 0 := by
    have : 1 ≤ n / 10 := (Nat.le_div_iff_mul_le (by decide)).mpr (by omega)
    omega
  have hlt : n / 10 < n := Nat.div_lt_self (by omega) (by decide)
  show Nat.toDigitsCore 10 (n + 1) n [] =
    Nat.toDigitsCore 10 (n / 10 + 1) (n / 10) [] ++ [Nat.digitChar (n % 10)]
  rw [toDigitsCore_succ, if_neg h0, toDigitsCore_append,
    toDigitsCore_fuel 10 (by decide) n (n / 10 + 1) (n / 10) [] hlt (by omega)]

theorem toDigits_length_pos (n : Nat) : 0 < (Nat.toDigits 10 n).length := by
  by_cases hn : n < 10
  · rw [toDigits_small n hn]; simp
  · rw [toDigits_large n (by omega)]; simp

theorem toString_nat (n : Nat) : toString n = String.mk (Nat.toDigits 10 n) := rfl

theorem toFixed_one (h : Host) (x : Rat) (h0 : 0 ≤ x) (hx : x < 10 ^ 21) :
    toFixed h x 1 =
      toString (⌊x * 10 + 1 / 2⌋.toNat / 10) ++ "." ++ toString (⌊x * 10 + 1 / 2⌋.toNat % 10) := by
  unfold toFixed
  simp only [not_lt.mpr h0, not_le.mpr hx, if_false, pow_one, ne_eq, one_ne_zero,
    not_false_eq_true, if_true]
  generalize ⌊x * 10 + 1 / 2⌋.toNat = n
  have hm : (if n = 0 then "0" else toString n) = toString n := by
    split
    · next hz => subst hz; rfl
    · rfl
  rw [hm, toString_nat n, toString_nat (n / 10), toString_nat (n % 10)]
  by_cases hn : n < 10
  · have hd : n / 10 = 0 := Nat.div_eq_of_lt hn
    rw [hd, Nat.mod_eq_of_lt hn, toDigits_small n hn, toDigits_small 0 (by decide)]
    apply String.ext
    simp [String.length]
    rfl
  · have hn10 : 10 ≤ n := by omega
    have hlen := toDigits_length_pos (n / 10)
    have hmod : n % 10 < 10 := Nat.mod_lt _ (by decide)
    rw [toDigits_large n hn10, toDigits_small (n % 10) hmod]
    have hk : ¬ (Nat.toDigits 10 (n / 10) ++ [Nat.digitChar (n % 10)]).length ≤ 1 := by
      simp only [List.length_append, List.length_singleton]; omega
    have hne : Nat.toDigits 10 (n / 10) ≠ [] := List.ne_nil_of_length_pos hlen
    apply String.ext
    simp [String.length, hne]

theorem round_tenths (x : Rat) (h0 : 0 ≤ x) :
    |((⌊x * 10 + 1 / 2⌋.toNat : Nat) : Rat) / 10 - x| ≤ 1 / 20 := by
  have hnn : (0 : Int) ≤ ⌊x * 10 + 1 / 2⌋ := Int.floor_nonneg.mpr (by linarith)
  have hcast : ((⌊x * 10 + 1 / 2⌋.toNat : Nat) : Rat) = ((⌊x * 10 + 1 / 2⌋ : Int) : Rat) := by
    have := Int.toNat_of_nonneg hnn
    exact_mod_cast this
  rw [hcast]
  have hle := Int.floor_le (x * 10 + 1 / 2)
  have hlt := Int.lt_floor_add_one (x * 10 + 1 / 2)
  rw [abs_le]
  constructor <;> linarith

theorem qualifies_pos (s : Sensor) (hq : Qualifies s) : 0 ≤ s.value := by
  rcases hq with ⟨-, hv⟩ | ⟨-, hv⟩
  · exact le_of_lt (lt_trans (by norm_num) hv)
  · exact le_of_lt (lt_trans (by norm_num) hv)

/-- C9, amended: for a qualifying reading whose value is below 10^21, the
alert generated for it carries the location and the value rounded to the
nearest tenth, written as the decimal numeral of the whole part, a point and
one digit; the single-reading batch applied to an empty log gives a log of
length 1. -/
theorem C9_message_one_decimal (h : Host) (t : Nat) (s : Sensor)
    (hq : Qualifies s) (hx : s.value < 10 ^ 21) :
    (∃ a, (newAlerts h t [s]).1 = [a] ∧ a.sensor = s ∧
      Occurs s.location a.message ∧
      Occurs (toFixed h s.value 1) a.message) ∧
    toFixed h s.value 1 =
      toString (⌊s.value * 10 + 1 / 2⌋.toNat / 10) ++ "." ++
        toString (⌊s.value * 10 + 1 / 2⌋.toNat % 10) ∧
    (toString (⌊s.value * 10 + 1 / 2⌋.toNat % 10)).length = 1 ∧
    |((⌊s.value * 10 + 1 / 2⌋.toNat : Nat) : Rat) / 10 - s.value| ≤ 1 / 20 ∧
    (∀ st : AppState, st.alerts = [] → (checkForAlerts h [s] st).alerts.length = 1) := by
  have h0 := qualifies_pos s hq
  refine ⟨?_, toFixed_one h s.value h0 hx, ?_, round_tenths s.value h0, ?_⟩
  · rw [newAlerts_cons, newAlerts_nil, forEachBody_nil]
    rcases hq with ⟨hty, hv⟩ | ⟨hty, hv⟩
    · refine ⟨warningAlert h t s, by simp [hty, hv], rfl, ?_, ?_⟩
      · exact ⟨"⚠️ Overflow Risk: ", " water level at " ++ toFixed h s.value 1 ++ "%", by
          simp [warningAlert, String.append_assoc]⟩
      · exact ⟨"⚠️ Overflow Risk: " ++ s.location ++ " water level at ", "%", rfl⟩
    · have hne : s.type ≠ "water_level" := by rw [hty]; decide
      refine ⟨criticalAlert h t s, by simp [hty, hv], rfl, ?_, ?_⟩
      · exact ⟨"🚨 Critical: ", " storage tank at " ++ toFixed h s.value 1 ++ "% capacity", by
          simp [criticalAlert, String.append_assoc]⟩
      · exact ⟨"🚨 Critical: " ++ s.location ++ " storage tank at ", "% capacity", rfl⟩
  · have hmod : ⌊s.value * 10 + 1 / 2⌋.toNat % 10 < 10 := Nat.mod_lt _ (by decide)
    rw [toString_nat, toDigits_small _ hmod]
    rfl
  · intro st hst
    rw [checkForAlerts_length, hst]
    have hf : [s].filter (fun s => decide (Qualifies s)) = [s] := by simp [hq]
    have hn : (newAlerts h st.tick [s]).1 ≠ [] := by
      intro hnil
      have := newAlerts_length h st.tick [s]
      rw [hnil, hf] at this
      simp at this
    rw [if_neg hn, hf]
    rfl

/-- C9 at the specification's scenario: Ulsoor Lake at 85 gives one alert
whose message mentions "Ulsoor Lake" and "85.0", and a log of length 1. -/
theorem C9_message_one_decimal_witness :
    toFixed sampleHost lakeAt85.value 1 = "85.0" ∧
    (∃ a, (newAlerts sampleHost 0 [lakeAt85]).1 = [a] ∧ a.sensor = lakeAt85 ∧
      Occurs "Ulsoor Lake" a.message ∧ Occurs "85.0" a.message) ∧
    (checkForAlerts sampleHost [lakeAt85] initialState).alerts.length = 1 := by
  have hc := C9_message_one_decimal sampleHost 0 lakeAt85 (by decide)
    (by norm_num [lakeAt85, reading])
  have hN : ⌊lakeAt85.value * 10 + 1 / 2⌋ = 850 := by
    rw [Int.floor_eq_iff]; norm_num [lakeAt85, reading]
  have hfix : toFixed sampleHost lakeAt85.value 1 = "85.0" := by
    rw [hc.2.1, hN]; decide
  refine ⟨hfix, ?_, hc.2.2.2.2 initialState rfl⟩
  obtain ⟨a, h1, h2, h3, h4⟩ := hc.1
  exact ⟨a, h1, h2, h3, hfix ▸ h4⟩

/-- C9 as stated fails at the value 1e21: `toFixed(1)` answers in exponent
notation, so the message carries "1e+21" and no decimal point. -/
theorem C9_exponent_notation_at_1e21 :
    Qualifies lakeAt1e21 ∧
    (newAlerts sampleHost 0 [lakeAt1e21]).1.map Alert.message
      = ["⚠️ Overflow Risk: Ulsoor Lake water level at 1e+21%"] ∧
    '.' ∉ "⚠️ Overflow Risk: Ulsoor Lake water level at 1e+21%".data := by
  have hv : lakeAt1e21.value > 80 := by norm_num [lakeAt1e21, reading]
  have hfix : toFixed sampleHost lakeAt1e21.value 1 = "1e+21" := by
    unfold toFixed
    norm_num [lakeAt1e21, reading, sampleHost]
  refine ⟨Or.inl ⟨rfl, hv⟩, ?_, by decide⟩
  rw [newAlerts_cons, newAlerts_nil, forEachBody_nil, if_pos ⟨rfl, hv⟩]
  simp only [List.append_nil, List.map_cons, List.map_nil, warningAlert, hfix]
  rfl

/-! ## Alert ids -/

/-- C10 (the code against the use of `alert.id` as the list key of the Alerts
view): the same lake reading delivered twice within one millisecond leaves two
alerts in the log that carry the same id. -/
theorem C10_same_millisecond_same_id :
    (checkAll sampleHost initialState [[lakeAt85], [lakeAt85]]).alerts.map Alert.id
      = ["alert-water_001-1700000000000", "alert-water_001-1700000000000"] := by
  decide

/-! ## Frame of `checkForAlerts` -/

theorem checkForAlerts_frame (h : Host) (xs : List Sensor) (st : AppState) :
    (checkForAlerts h xs st).sensors = st.sensors ∧
    (checkForAlerts h xs st).forecast = st.forecast ∧
    (checkForAlerts h xs st).aiDecisions = st.aiDecisions ∧
    (checkForAlerts h xs st).isConnected = st.isConnected ∧
    (checkForAlerts h xs st).activeTab = st.activeTab ∧
    (checkForAlerts h xs st).connectionError = st.connectionError := by
  unfold checkForAlerts
  by_cases hn : (newAlerts h st.tick xs).1.length > 0 <;> simp [hn]

theorem onSensorUpdate_sensors (h : Host) (xs : List Sensor) (st : AppState) :
    (onSensorUpdate h xs st).sensors = xs := by
  unfold onSensorUpdate
  rw [(checkForAlerts_frame h xs _).1]

theorem onSensorUpdate_alerts (h : Host) (xs : List Sensor) (st : AppState) :
    (onSensorUpdate h xs st).alerts = (checkForAlerts h xs st).alerts := by
  unfold onSensorUpdate
  rw [checkForAlerts_alerts, checkForAlerts_alerts]

/-! ## The sensor state under `sensor_update` and `valve_update` -/

theorem onSensorUpdates_sensors (h : Host) (batches : List (List Sensor)) (st : AppState) :
    (onSensorUpdates h st batches).sensors = batches.getLast?.getD st.sensors := by
  induction batches generalizing st with
  | nil => rfl
  | cons b bs ih =>
    show (onSensorUpdates h (onSensorUpdate h b st) bs).sensors = _
    rw [ih, onSensorUpdate_sensors]
    cases bs with
    | nil => rfl
    | cons c cs =>
      rw [List.getLast?_cons_cons, List.getLast?_eq_getLast _ (List.cons_ne_nil c cs)]
      rfl

/-- C11 as stated fails: after a batch with the lake and the drain and then a
batch with the drain alone, the lake is no longer in the sensor state. -/
theorem C11_absent_sensor_dropped :
    (onSensorUpdates sampleHost initialState [[lakeAt80, flowAt145], [flowAt145]]).sensors
        = [flowAt145] ∧
      valueOf "water_001"
        (onSensorUpdates sampleHost initialState [[lakeAt80, flowAt145], [flowAt145]]).sensors
        = none := by
  have hs := onSensorUpdates_sensors sampleHost [[lakeAt80, flowAt145], [flowAt145]]
    initialState
  rw [hs]
  exact ⟨rfl, by decide⟩

/-- C11, amended: after any sequence of `sensor_update` batches applied from
the empty state, the sensor state is exactly the most recently applied batch,
and empty when none was applied; from any state it is the last batch, or the
prior list when no batch came. -/
theorem C11_state_is_latest_batch (h : Host) (batches : List (List Sensor)) :
    (onSensorUpdates h initialState batches).sensors = batches.getLast?.getD [] ∧
    (∀ st : AppState,
      (onSensorUpdates h st batches).sensors = batches.getLast?.getD st.sensors) ∧
    (∀ (st : AppState) (b : List Sensor), (onSensorUpdate h b st).sensors = b) :=
  ⟨onSensorUpdates_sensors h batches initialState,
    fun st => onSensorUpdates_sensors h batches st,
    fun st b => onSensorUpdate_sensors h b st⟩

/-- C12: a `valve_update` keeps the length and the order of the sensor list;
at every position the new entry has the id, type, location, coordinates,
status and timestamp of the old one, carries `status` as value when the id is
`valveId` and is the old entry otherwise; with no sensor of that id the list
is unchanged, and no other state cell is written. -/
theorem C12_valve_update_frame (valveId : String) (status : Rat) (st : AppState) :
    (onValveUpdate valveId status st).sensors.length = st.sensors.length ∧
    (onValveUpdate valveId status st).sensors.map Sensor.id = st.sensors.map Sensor.id ∧
    (∀ (i : Nat) (s : Sensor), st.sensors[i]? = some s →
      ∃ s', (onValveUpdate valveId status st).sensors[i]? = some s' ∧
        s'.id = s.id ∧ s'.type = s.type ∧ s'.location = s.location ∧ s'.lat = s.lat ∧
        s'.lng = s.lng ∧ s'.status = s.status ∧ s'.timestamp = s.timestamp ∧
        (s.id = valveId → s'.value = status) ∧ (s.id ≠ valveId → s' = s)) ∧
    ((∀ s ∈ st.sensors, s.id ≠ valveId) → (onValveUpdate valveId status st).sensors = st.sensors) ∧
    (onValveUpdate valveId status st).alerts = st.alerts ∧
    (onValveUpdate valveId status st).forecast = st.forecast ∧
    (onValveUpdate valveId status st).aiDecisions = st.aiDecisions ∧
    (onValveUpdate valveId status st).isConnected = st.isConnected ∧
    (onValveUpdate valveId status st).connectionError = st.connectionError := by
  refine ⟨by simp [onValveUpdate], ?_, ?_, ?_, rfl, rfl, rfl, rfl, rfl⟩
  · simp only [onValveUpdate, List.map_map]
    refine List.map_congr_left fun s _ => ?_
    by_cases hid : s.id = valveId <;> simp [hid]
  · intro i s hs
    by_cases hid : s.id = valveId
    · refine ⟨{ s with value := status }, ?_, rfl, rfl, rfl, rfl, rfl, rfl, rfl,
        fun _ => rfl, fun hne => absurd hid hne⟩
      simp [onValveUpdate, List.getElem?_map, hs, hid]
    · refine ⟨s, ?_, rfl, rfl, rfl, rfl, rfl, rfl, rfl, fun heq => absurd heq hid,
        fun _ => rfl⟩
      simp [onValveUpdate, List.getElem?_map, hs, hid]
  · intro hno
    simp only [onValveUpdate]
    conv_rhs => rw [← List.map_id st.sensors]
    refine List.map_congr_left fun s hs => ?_
    simp [hno s hs]

/-! ## Valve commands -/

theorem valueOf_map_value (valveId : String) (status : Rat) (xs : List Sensor) :
    valueOf valveId
        (xs.map fun sensor =>
          if sensor.id = valveId then { sensor with value := status } else sensor)
      = (valueOf valveId xs).map fun _ => status := by
  induction xs with
  | nil => rfl
  | cons s xs ih =>
    unfold valueOf at ih ⊢
    by_cases hid : s.id = valveId
    · simp [List.find?_cons, hid]
    · simpa [List.find?_cons, hid] using ih

/-- C13 as stated fails: with the closed pump `valve_002` in the sensor state,
`controlValve("valve_002", "open")` leaves its value at 0, on submission and
after an ok response. -/
theorem C13_no_optimistic_update :
    valueOf "valve_002" pumpState.sensors = some 0 ∧
    valueOf "valve_002" (controlValveSubmit "valve_002" "open" pumpState).1.sensors = some 0 ∧
    valueOf "valve_002" (controlValve "valve_002" "open" .ok pumpState).1.sensors = some 0 := by
  decide

/-- C13, amended: `controlValve` writes no state cell, neither on submission
nor when the request settles, so the valve keeps the value it had; the value
of a valve in the sensor state is set by a later `valve_update` event for it,
to the status the event carries. -/
theorem C13_valve_value_set_by_event_only (valveId action : String)
    (outcome : ControlOutcome) (st : AppState) :
    (controlValveSubmit valveId action st).1 = st ∧
    (controlValve valveId action outcome st).1 = st ∧
    (∀ status : Rat, valueOf valveId (onValveUpdate valveId status st).sensors
      = (valueOf valveId st.sensors).map fun _ => status) := by
  refine ⟨rfl, ?_, fun status => valueOf_map_value valveId status st.sensors⟩
  cases outcome <;> rfl

/-- C14: when the request of `controlValve(v, action)` throws or its response
is not ok, the value of valve `v` in the sensor state afterwards is its value
before the submission; the whole state is as it was. -/
theorem C14_failed_command_keeps_value (valveId action : String) (outcome : ControlOutcome)
    (st : AppState) (hfail : outcome = .notOk ∨ outcome = .thrown) :
    valueOf valveId (controlValve valveId action outcome st).1.sensors
        = valueOf valveId st.sensors ∧
      (controlValve valveId action outcome st).1 = st := by
  rcases hfail with rfl | rfl <;> exact ⟨rfl, rfl⟩

/-- C14 at a refused command to open the closed pump. -/
theorem C14_failed_command_keeps_value_witness :
    valueOf "valve_002" (controlValve "valve_002" "open" .notOk pumpState).1.sensors
      = valueOf "valve_002" pumpState.sensors :=
  (C14_failed_command_keeps_value "valve_002" "open" .notOk pumpState (Or.inl rfl)).1

/-- C15 as stated fails: after a response that is not ok, and after a thrown
error, `controlValve` has made no call of `fetchAiDecisions`. -/
theorem C15_no_refresh_on_failure :
    (controlValve "valve_001" "open" .notOk pumpState).2.count Effect.fetchAiDecisions = 0 ∧
    (controlValve "valve_001" "open" .thrown pumpState).2.count Effect.fetchAiDecisions = 0 := by
  decide

/-- C15, amended: `controlValve` calls `fetchAiDecisions` exactly once when the
response is ok, as the last thing it does, and not at all when the response is
not ok or the request throws. -/
theorem C15_refresh_only_when_ok (valveId action : String) (outcome : ControlOutcome)
    (st : AppState) :
    (controlValve valveId action outcome st).2.count Effect.fetchAiDecisions
        = (if outcome = .ok then 1 else 0) ∧
      ((controlValve valveId action .ok st).2.getLast? = some Effect.fetchAiDecisions) := by
  refine ⟨?_, rfl⟩
  cases outcome <;> simp [controlValve, controlValveSubmit, controlValveSettle]

/-! ## Socket lifecycle -/

theorem onSocketEvent_frame (e : SocketEvent) (st : AppState) :
    (onSocketEvent e st).sensors = st.sensors ∧
    (onSocketEvent e st).forecast = st.forecast ∧
    (onSocketEvent e st).aiDecisions = st.aiDecisions ∧
    (onSocketEvent e st).alerts = st.alerts ∧
    (onSocketEvent e st).tick = st.tick := by
  cases e <;> exact ⟨rfl, rfl, rfl, rfl, rfl⟩

theorem onSocketEvents_frame (es : List SocketEvent) (st : AppState) :
    (onSocketEvents st es).sensors = st.sensors ∧
    (onSocketEvents st es).forecast = st.forecast ∧
    (onSocketEvents st es).aiDecisions = st.aiDecisions ∧
    (onSocketEvents st es).alerts = st.alerts ∧
    (onSocketEvents st es).tick = st.tick := by
  induction es generalizing st with
  | nil => exact ⟨rfl, rfl, rfl, rfl, rfl⟩
  | cons e es ih =>
    obtain ⟨h1, h2, h3, h4, h5⟩ := ih (onSocketEvent e st)
    obtain ⟨g1, g2, g3, g4, g5⟩ := onSocketEvent_frame e st
    exact ⟨h1.trans g1, h2.trans g2, h3.trans g3, h4.trans g4, h5.trans g5⟩

theorem onSocketEvents_last (es : List SocketEvent) (st : AppState) (e : SocketEvent)
    (hlast : es.getLast? = some e) :
    (onSocketEvents st es).isConnected = decide (e = .connect) ∧
    (onSocketEvents st es).connectionError = !decide (e = .connect) := by
  induction es generalizing st with
  | nil => simp at hlast
  | cons a es ih =>
    cases es with
    | nil =>
      simp only [List.getLast?_singleton, Option.some.injEq] at hlast
      subst hlast
      cases a <;> exact ⟨rfl, rfl⟩
    | cons c cs =>
      rw [List.getLast?_cons_cons] at hlast
      exact ih (onSocketEvent a st) hlast

theorem initializeMockData_sensors (h : Host) (st : AppState) :
    (initializeMockData h st).sensors = mockSensors h st.tick ∧
    (initializeMockData h st).forecast = mockForecast ∧
    (initializeMockData h st).aiDecisions = mockAiDecisions := by
  unfold initializeMockData
  obtain ⟨h1, h2, h3, -⟩ := checkForAlerts_frame h (mockSensors h st.tick)
    { st with sensors := mockSensors h st.tick, forecast := mockForecast,
              aiDecisions := mockAiDecisions, tick := st.tick + 10 }
  exact ⟨h1, h2, h3⟩

/-- C16 as stated fails: five stream failures handled from the initial state
leave `isConnected` false and the sensor state empty. -/
theorem C16_five_failures_no_dataset :
    (onSocketEvents initialState fiveFailures).isConnected = false ∧
    (onSocketEvents initialState fiveFailures).sensors = [] := by
  decide

/-- C16, amended: after five stream failures in a row, and after any positive
number of them, `isConnected` is false and `connectionError` is true, and the
sensor state, forecast, advisories and alert log are what they were, so from
the initial state the sensor state is still empty.  The synthetic dataset is
installed by `initializeMockData`, which runs when the socket could not be
created or the `fetchSensors` of the mount effect fails. -/
theorem C16_failures_only_clear_connection (h : Host) (es : List SocketEvent) (st : AppState)
    (hne : es ≠ []) (hfail : ∀ e ∈ es, e = .disconnect ∨ e = .connectError) :
    (onSocketEvents st es).isConnected = false ∧
    (onSocketEvents st es).connectionError = true ∧
    (onSocketEvents st es).sensors = st.sensors ∧
    (onSocketEvents st es).forecast = st.forecast ∧
    (onSocketEvents st es).aiDecisions = st.aiDecisions ∧
    (onSocketEvents st es).alerts = st.alerts ∧
    (onSocketEvents initialState es).sensors = [] ∧
    (fetchSensorsOnMount h none st).sensors = mockSensors h st.tick ∧
    (mountWithoutSocket h st).sensors = mockSensors h st.tick := by
  obtain ⟨f1, f2, f3, f4, -⟩ := onSocketEvents_frame es st
  have hlast := List.getLast?_eq_getLast es hne
  have hmem : es.getLast hne ∈ es := List.getLast_mem hne
  obtain ⟨c1, c2⟩ := onSocketEvents_last es st _ hlast
  have hnc : es.getLast hne ≠ .connect := by
    rcases hfail _ hmem with he | he <;> rw [he] <;> decide
  refine ⟨?_, ?_, f1, f2, f3, f4, (onSocketEvents_frame es initialState).1, ?_, ?_⟩
  · rw [c1]; simp [hnc]
  · rw [c2]; simp [hnc]
  · exact (initializeMockData_sensors h { st with connectionError := true }).1
  · exact (initializeMockData_sensors h { st with connectionError := true }).1

/-- C16 at five failures from the initial state. -/
theorem C16_failures_only_clear_connection_witness :
    (onSocketEvents initialState fiveFailures).isConnected = false ∧
    (onSocketEvents initialState fiveFailures).connectionError = true ∧
    (onSocketEvents initialState fiveFailures).sensors = initialState.sensors :=
  have hc := C16_failures_only_clear_connection sampleHost fiveFailures initialState
    (by decide) (by decide)
  ⟨hc.1, hc.2.1, hc.2.2.1⟩

/-! ## The mock dataset -/

/-- C17: the dataset installed by `initializeMockData` is non-empty, its
sensor ids are pairwise distinct, every type and status is one of the listed
ones, the `water_level` and `storage` values lie in [0, 100], the valve values
are 0 or 1, and the forecast dates are strictly increasing. -/
theorem C17_mock_data_well_formed (h : Host) (st : AppState) :
    (initializeMockData h st).sensors = mockSensors h st.tick ∧
    (initializeMockData h st).forecast = mockForecast ∧
    mockSensors h st.tick ≠ [] ∧
    ((mockSensors h st.tick).map Sensor.id).Nodup ∧
    (∀ s ∈ mockSensors h st.tick,
      s.type ∈ ["rainfall", "water_level", "flow_rate", "flow_velocity", "storage", "valve"] ∧
      s.status ∈ ["active", "inactive", "fault"] ∧
      (s.type = "water_level" ∨ s.type = "storage" → 0 ≤ s.value ∧ s.value ≤ 100) ∧
      (s.type = "valve" → s.value = 0 ∨ s.value = 1)) ∧
    List.Pairwise (fun a b : String => a < b) (mockForecast.map Forecast.date) := by
  refine ⟨(initializeMockData_sensors h st).1, (initializeMockData_sensors h st).2.1,
    by simp [mockSensors], by simp [mockSensors], ?_, ?_⟩
  · intro s hs
    simp only [mockSensors, List.mem_cons, List.mem_singleton, List.not_mem_nil, or_false] at hs
    rcases hs with rfl | rfl | rfl | rfl | rfl | rfl | rfl | rfl | rfl | rfl <;>
      refine ⟨by simp, by simp, ?_, ?_⟩ <;> norm_num <;> decide
  · simp only [mockForecast, List.map_cons, List.map_nil, String.lt_iff_toList_lt]
    decide

/-! ## Failure of the initial fetch -/

/-- C18 (the code against its comment `Only initialize mock data if we don't
already have sensors`): with two live readings in the sensor state, the failing
`fetchSensors` of the mount effect replaces them by the ten mock sensors and
installs the mock forecast and advisories, because its `sensors` is the `[]`
of the first render; run with the current list it would have kept the state. -/
theorem C18_stale_sensors_in_catch :
    liveState.sensors = [lakeAt80, flowAt145] ∧
    liveState.forecast = [] ∧
    (fetchSensorsOnMount sampleHost none liveState).sensors.map Sensor.id
      = ["rain_001", "rain_002", "water_001", "water_002", "flow_001", "flow_002",
         "storage_001", "storage_002", "valve_001", "valve_002"] ∧
    (fetchSensorsOnMount sampleHost none liveState).forecast = mockForecast ∧
    (fetchSensorsOnMount sampleHost none liveState).aiDecisions = mockAiDecisions ∧
    (fetchSensors sampleHost liveState.sensors none liveState).sensors = liveState.sensors := by
  have hm := initializeMockData_sensors sampleHost { liveState with connectionError := true }
  have hlive : liveState.sensors = [lakeAt80, flowAt145] :=
    onSensorUpdate_sensors sampleHost _ initialState
  have hfore : liveState.forecast = [] :=
    (checkForAlerts_frame sampleHost _ _).2.1
  refine ⟨hlive, hfore, ?_, hm.2.1, hm.2.2, ?_⟩
  · show ((initializeMockData sampleHost { liveState with connectionError := true }).sensors).map
      Sensor.id = _
    rw [hm.1]
    rfl
  · unfold fetchSensors
    rw [hlive]
    rfl

/-! ## Payloads of `sensor_update` -/

/-- C19 as stated fails: a `sensor_update` payload without a `sensors` field,
handled on a state holding two readings, leaves `undefined` in the sensor
state and makes the handler throw. -/
theorem C19_malformed_payload_stored :
    liveState.sensors = [lakeAt80, flowAt145] ∧
    (onSensorUpdatePayload sampleHost none liveState).sensorsCell = none ∧
    (onSensorUpdatePayload sampleHost none liveState).threw = true :=
  ⟨onSensorUpdate_sensors sampleHost _ initialState, rfl, rfl⟩

/-- C19, amended: the handler validates nothing.  A payload without a `sensors`
field overwrites the sensor state with `undefined` and makes `checkForAlerts`
throw before the alert log is written, so the log keeps its value; a payload
whose `sensors` field is a list of readings replaces the sensor state by that
list and has `checkForAlerts` run on it. -/
theorem C19_payload_stored_unvalidated (h : Host) (st : AppState) :
    (onSensorUpdatePayload h none st).sensorsCell = none ∧
    (onSensorUpdatePayload h none st).alerts = st.alerts ∧
    (onSensorUpdatePayload h none st).threw = true ∧
    (∀ xs : List Sensor,
      (onSensorUpdatePayload h (some xs) st).sensorsCell = some xs ∧
      (onSensorUpdatePayload h (some xs) st).alerts = (checkForAlerts h xs st).alerts ∧
      (onSensorUpdatePayload h (some xs) st).threw = false) := by
  refine ⟨rfl, rfl, rfl, fun xs => ⟨?_, ?_, rfl⟩⟩
  · show some (onSensorUpdate h xs st).sensors = some xs
    rw [onSensorUpdate_sensors]
  · exact onSensorUpdate_alerts h xs st

/-! ## Alerts over the whole sensor state -/

/-- C20: after a `sensor_update` and after a successful `fetchSensors`, the
sensor state is the batch, and the alerts put at the head of the log are those
of `checkForAlerts` run on that whole state: their source sensors are all the
qualifying readings of the state, changed or not. -/
theorem C20_alerts_over_whole_state (h : Host) (xs closureSensors : List Sensor)
    (st : AppState) :
    (onSensorUpdate h xs st).sensors = xs ∧
    (onSensorUpdate h xs st).alerts
      = (checkForAlerts h (onSensorUpdate h xs st).sensors st).alerts ∧
    (fetchSensors h closureSensors (some xs) st).sensors = xs ∧
    (fetchSensors h closureSensors (some xs) st).alerts
      = (checkForAlerts h (fetchSensors h closureSensors (some xs) st).sensors st).alerts ∧
    (newAlerts h st.tick (onSensorUpdate h xs st).sensors).1.map Alert.sensor
      = (onSensorUpdate h xs st).sensors.filter (fun s => decide (Qualifies s)) ∧
    ((onSensorUpdate h xs st).alerts.take
        ((onSensorUpdate h xs st).sensors.filter (fun s => decide (Qualifies s))).length).map
          Alert.sensor
      = (onSensorUpdate h xs st).sensors.filter (fun s => decide (Qualifies s)) := by
  have hs := onSensorUpdate_sensors h xs st
  have hf : (fetchSensors h closureSensors (some xs) st).sensors = xs :=
    (checkForAlerts_frame h xs { st with sensors := xs }).1
  have hfa : (fetchSensors h closureSensors (some xs) st).alerts
      = (checkForAlerts h xs st).alerts := onSensorUpdate_alerts h xs st
  refine ⟨hs, ?_, hf, ?_, newAlerts_sensors h st.tick _, ?_⟩
  · rw [hs]; exact onSensorUpdate_alerts h xs st
  · rw [hf]; exact hfa
  · rw [hs, onSensorUpdate_alerts]
    have := checkForAlerts_alerts h xs st
    rw [this]
    by_cases hn : (newAlerts h st.tick xs).1 = []
    · have h0 : xs.filter (fun s => decide (Qualifies s)) = [] := by
        rw [← newAlerts_sensors h st.tick xs, hn]; rfl
      simp [hn, h0]
    · rw [if_neg hn, ← newAlerts_length h st.tick xs, List.take_left, newAlerts_sensors]

/-! ## Repeated batches -/

theorem twice_sources (h : Host) (b : List Sensor) :
    (checkAll h initialState [b, b]).alerts.map Alert.sensor
      = b.filter (fun s => decide (Qualifies s))
          ++ (b.filter (fun s => decide (Qualifies s))).take 9 := by
  show (checkForAlerts h b (checkForAlerts h b initialState)).alerts.map Alert.sensor = _
  have h1 : (checkForAlerts h b initialState).alerts = (newAlerts h 0 b).1 := by
    rw [checkForAlerts_alerts]
    by_cases hn : (newAlerts h initialState.tick b).1 = []
    · rw [if_pos hn]
      exact hn.symm
    · rw [if_neg hn]
      simp [initialState]
  rw [checkForAlerts_alerts, h1]
  by_cases hn : (newAlerts h (checkForAlerts h b initialState).tick b).1 = []
  · have h0 : b.filter (fun s => decide (Qualifies s)) = [] := by
      rw [← newAlerts_sensors h (checkForAlerts h b initialState).tick b, hn]; rfl
    rw [if_pos hn, newAlerts_sensors, h0]
    rfl
  · rw [if_neg hn, List.map_append, List.map_take, newAlerts_sensors, newAlerts_sensors]

/-- C21 as stated fails: a batch of ten lakes above 80, applied twice from the
empty log, leaves one alert for the tenth lake, the first one being cut by the
retention of nine prior alerts. -/
theorem C21_tenth_reading_kept_once :
    ((checkAll sampleHost initialState [tenLakes, tenLakes]).alerts.filter
      fun a => decide (a.sensor.id = "water_010")).length = 1 := by
  decide

/-- C21, amended: when a batch has k qualifying readings, reading s is the
i-th of them counting from 0, and k + i < 10, applying the batch twice from the
empty log leaves two alerts with source sensor s, at positions i and k + i of
the log, although the value did not change between the two applications. -/
theorem C21_no_deduplication (h : Host) (b : List Sensor) (i : Nat) (s : Sensor)
    (hs : (b.filter (fun s => decide (Qualifies s)))[i]? = some s)
    (hfit : (b.filter (fun s => decide (Qualifies s))).length + i < 10) :
    ((checkAll h initialState [b, b]).alerts.map Alert.sensor)[i]? = some s ∧
    ((checkAll h initialState [b, b]).alerts.map Alert.sensor)[
        (b.filter (fun s => decide (Qualifies s))).length + i]? = some s ∧
    i ≠ (b.filter (fun s => decide (Qualifies s))).length + i := by
  have hi : i < (b.filter (fun s => decide (Qualifies s))).length := by
    by_contra hge
    rw [List.getElem?_eq_none (by omega)] at hs
    exact absurd hs (by simp)
  rw [twice_sources]
  refine ⟨?_, ?_, by omega⟩
  · rw [List.getElem?_append_left hi]; exact hs
  · rw [List.getElem?_append_right (by omega), Nat.add_sub_cancel_left,
      List.getElem?_take_of_lt (by omega)]
    exact hs

/-- C21 at the surge batch and its first reading. -/
theorem C21_no_deduplication_witness :
    ((checkAll sampleHost initialState [surgeBatch, surgeBatch]).alerts.map Alert.sensor)[0]?
        = some lakeAt85 ∧
      ((checkAll sampleHost initialState [surgeBatch, surgeBatch]).alerts.map Alert.sensor)[4]?
        = some lakeAt85 :=
  have hc := C21_no_deduplication sampleHost surgeBatch 0 lakeAt85 (by decide) (by decide)
  ⟨hc.1, hc.2.1⟩

/-! ## The connection flag -/

/-- C22: the state starts with `isConnected` false and no sensors or alerts,
and after any sequence of socket lifecycle events handled from it `isConnected`
is true exactly when the sequence is non-empty and ends in `connect`. -/
theorem C22_connected_iff_last_is_connect :
    initialState.isConnected = false ∧ initialState.sensors = [] ∧
    initialState.alerts = [] ∧
    (∀ es : List SocketEvent,
      (onSocketEvents initialState es).isConnected = true
        ↔ es ≠ [] ∧ es.getLast? = some SocketEvent.connect) := by
  refine ⟨rfl, rfl, rfl, fun es => ?_⟩
  cases hl : es.getLast? with
  | none =>
    have : es = [] := List.getLast?_eq_none_iff.mp hl
    subst this
    simp [onSocketEvents, initialState]
  | some e =>
    have hne : es ≠ [] := by
      intro hnil; subst hnil; simp at hl
    rw [(onSocketEvents_last es initialState e hl).1]
    cases e <;> simp [hne]

/-- C23: `sensor_update`, `valve_update`, `fetchSensors`, `fetchForecast`,
`fetchAiDecisions`, `initializeMockData`, `checkForAlerts` and `controlValve`
leave `isConnected` as it was, however their request settles. -/
theorem C23_only_socket_handlers_write_isConnected (h : Host) (st : AppState) :
    (∀ xs, (onSensorUpdate h xs st).isConnected = st.isConnected) ∧
    (∀ valveId status, (onValveUpdate valveId status st).isConnected = st.isConnected) ∧
    (∀ closureSensors response,
      (fetchSensors h closureSensors response st).isConnected = st.isConnected) ∧
    (∀ response, (fetchForecast response st).isConnected = st.isConnected) ∧
    (∀ response, (fetchAiDecisions response st).isConnected = st.isConnected) ∧
    (initializeMockData h st).isConnected = st.isConnected ∧
    (∀ xs, (checkForAlerts h xs st).isConnected = st.isConnected) ∧
    (∀ valveId action outcome,
      (controlValveSubmit valveId action st).1.isConnected = st.isConnected ∧
      (controlValve valveId action outcome st).1.isConnected = st.isConnected) := by
  have hcheck : ∀ xs (s : AppState), (checkForAlerts h xs s).isConnected = s.isConnected :=
    fun xs s => (checkForAlerts_frame h xs s).2.2.2.1
  have hmock : ∀ s : AppState, (initializeMockData h s).isConnected = s.isConnected :=
    fun s => hcheck _ _
  refine ⟨fun xs => hcheck xs _, fun _ _ => rfl, ?_, ?_, ?_, hmock st, fun xs => hcheck xs st, ?_⟩
  · intro closureSensors response
    cases response with
    | some data => exact hcheck data _
    | none =>
      unfold fetchSensors
      by_cases hc : closureSensors.length = 0
      · simp only [hc, if_true]; exact hmock _
      · simp only [hc, if_false]
  · intro response; cases response <;> rfl
  · intro response; cases response <;> rfl
  · intro valveId action outcome
    refine ⟨rfl, ?_⟩
    cases outcome <;> rfl

/-! ## Batches without a qualifying reading -/

theorem newAlerts_eq_nil (h : Host) (t : Nat) (xs : List Sensor)
    (hno : ∀ s ∈ xs, ¬ Qualifies s) : (newAlerts h t xs).1 = [] := by
  apply List.eq_nil_of_length_eq_zero
  rw [newAlerts_length, List.length_eq_zero, List.filter_eq_nil_iff]
  intro s hs
  simpa using hno s hs

/-- C25: a batch in which no reading qualifies, the empty batch included,
leaves the alert log exactly as it was. -/
theorem C25_quiet_batch_keeps_log (h : Host) (xs : List Sensor) (st : AppState)
    (hno : ∀ s ∈ xs, ¬ Qualifies s) :
    (checkForAlerts h xs st).alerts = st.alerts ∧
    (checkForAlerts h [] st).alerts = st.alerts := by
  constructor
  · rw [checkForAlerts_alerts, if_pos (newAlerts_eq_nil h st.tick xs hno)]
  · rw [checkForAlerts_alerts, if_pos (newAlerts_eq_nil h st.tick [] (by simp))]

/-- C25 at a lake at 80 and a drain arriving on a log of four alerts. -/
theorem C25_quiet_batch_keeps_log_witness :
    (checkForAlerts sampleHost [lakeAt80, flowAt145]
        (checkAll sampleHost initialState [surgeBatch])).alerts
      = (checkAll sampleHost initialState [surgeBatch]).alerts :=
  (C25_quiet_batch_keeps_log sampleHost [lakeAt80, flowAt145]
    (checkAll sampleHost initialState [surgeBatch]) (by decide)).1

/-! ## The Dashboard against the alert rule -/

theorem red_iff_qualifies (s : Sensor)
    (hty : s.type = "water_level" ∨ s.type = "storage") :
    getSensorColor s.type s.value = "text-red-500" ↔ Qualifies s := by
  unfold getSensorColor Qualifies
  rcases hty with hty | hty
  · rw [hty]
    by_cases h80 : s.value > 80
    · simp [h80]
    · by_cases h60 : s.value > 60 <;> simp [h80, h60]
  · rw [hty]
    by_cases h90 : s.value > 90
    · simp [h90]
    · by_cases h70 : s.value > 70 <;> simp [h90, h70]

/-- C26: for a sensor of type `water_level` or `storage`, `getSensorColor`
answers `text-red-500` exactly when `checkForAlerts` generates an alert for
it, in any batch that holds it and on its own. -/
theorem C26_red_iff_alert (h : Host) (t : Nat) (xs : List Sensor) (s : Sensor)
    (hs : s ∈ xs) (hty : s.type = "water_level" ∨ s.type = "storage") :
    (getSensorColor s.type s.value = "text-red-500"
      ↔ ∃ a ∈ (newAlerts h t xs).1, a.sensor = s) ∧
    (getSensorColor s.type s.value = "text-red-500" ↔ (newAlerts h t [s]).1 ≠ []) := by
  rw [red_iff_qualifies s hty]
  constructor
  · constructor
    · exact fun hq => exists_alert_of_qualifies h xs t s hs hq
    · rintro ⟨a, ha, rfl⟩
      exact qualifies_of_alert h xs t a ha
  · constructor
    · intro hq hnil
      obtain ⟨a, ha, -⟩ := exists_alert_of_qualifies h [s] t s (List.mem_singleton_self s) hq
      rw [hnil] at ha
      exact absurd ha (List.not_mem_nil a)
    · intro hne
      by_contra hq
      exact hne (newAlerts_eq_nil h t [s] (by simpa using hq))

/-- C26 at a tank at exactly 90: not red, and no alert. -/
theorem C26_red_iff_alert_witness :
    (getSensorColor tankAt90.type tankAt90.value = "text-red-500"
      ↔ (newAlerts sampleHost 0 [tankAt90]).1 ≠ []) ∧
    getSensorColor tankAt90.type tankAt90.value = "text-yellow-500" :=
  ⟨(C26_red_iff_alert sampleHost 0 [tankAt90] tankAt90 (by decide) (Or.inr rfl)).2,
    by decide⟩

theorem filter_length_le_of_imp {α : Type} (p q : α → Bool) (xs : List α)
    (himp : ∀ x, p x = true → q x = true) :
    (xs.filter p).length ≤ (xs.filter q).length ∧
    ((xs.filter p).length = (xs.filter q).length ↔ ∀ x ∈ xs, q x = true → p x = true) := by
  induction xs with
  | nil => simp
  | cons x xs ih =>
    obtain ⟨ih1, ih2⟩ := ih
    cases hp : p x <;> cases hq : q x
    · simp only [List.filter_cons, hp, hq, List.forall_mem_cons]
      exact ⟨ih1, by simpa using ih2⟩
    · simp only [List.filter_cons, hp, hq, List.forall_mem_cons, if_true, List.length_cons]
      refine ⟨by simp only [Bool.false_eq_true, if_false]; omega, ?_⟩
      simp only [Bool.false_eq_true, if_false]
      constructor
      · intro heq; omega
      · intro hall; exact absurd (hall.1 trivial) (by simp)
    · rw [himp x hp] at hq; exact absurd hq (by simp)
    · simp only [List.filter_cons, hp, hq, List.forall_mem_cons, if_true, List.length_cons]
      refine ⟨by omega, ?_⟩
      constructor
      · intro heq
        exact ⟨fun _ => trivial, ih2.mp (by omega)⟩
      · intro hall
        have := ih2.mpr hall.2
        omega

theorem critical_vs_qualifies (xs : List Sensor) :
    (xs.filter (fun s => decide (Qualifies s))).length ≤ criticalSensors xs ∧
    ((xs.filter (fun s => decide (Qualifies s))).length = criticalSensors xs
      ↔ ∀ s ∈ xs, ¬ (s.type = "storage" ∧ 80 < s.value ∧ s.value ≤ 90)) := by
  have himp : ∀ x : Sensor, decide (Qualifies x) = true →
      (if x.type = "water_level" ∨ x.type = "storage" then decide (x.value > 80)
        else false) = true := by
    intro x hq
    rcases of_decide_eq_true hq with ⟨hty, hv⟩ | ⟨hty, hv⟩
    · simp [hty, hv]
    · have h80 : x.value > 80 := lt_trans (by norm_num) hv
      simp [hty, h80]
  obtain ⟨h1, h2⟩ := filter_length_le_of_imp _ _ xs himp
  refine ⟨h1, h2.trans ?_⟩
  refine forall_congr' fun x => forall_congr' fun _ => ?_
  constructor
  · rintro hcq ⟨hty, h80, h90⟩
    have hq : Qualifies x := of_decide_eq_true (hcq (by simp [hty, h80]))
    rcases hq with ⟨hw, -⟩ | ⟨-, hv⟩
    · rw [hty] at hw; exact absurd hw (by decide)
    · exact absurd hv (not_lt.mpr h90)
  · intro hgap hc
    by_cases hty : x.type = "water_level" ∨ x.type = "storage"
    · rw [if_pos hty] at hc
      have h80 : x.value > 80 := of_decide_eq_true hc
      rcases hty with hw | hst
      · exact decide_eq_true (Or.inl ⟨hw, h80⟩)
      · by_cases h90 : x.value > 90
        · exact decide_eq_true (Or.inr ⟨hst, h90⟩)
        · exact absurd ⟨hst, h80, not_lt.mp h90⟩ hgap
    · rw [if_neg hty] at hc
      exact absurd hc (by simp)

/-- C27: the `Critical Alerts` count of the Dashboard is at least the number
of alerts `checkForAlerts` generates from the same list, and the two are equal
exactly when no `storage` sensor has a value above 80 and at most 90. -/
theorem C27_critical_count_bounds_alerts (h : Host) (t : Nat) (xs : List Sensor) :
    (newAlerts h t xs).1.length ≤ criticalSensors xs ∧
    ((newAlerts h t xs).1.length = criticalSensors xs
      ↔ ∀ s ∈ xs, ¬ (s.type = "storage" ∧ 80 < s.value ∧ s.value ≤ 90)) := by
  rw [newAlerts_length]
  exact critical_vs_qualifies xs

/-! ## Demo mode -/

theorem mockSensors_quiet (h : Host) (t : Nat) : ∀ s ∈ mockSensors h t, ¬ Qualifies s := by
  intro s hs
  simp only [mockSensors, List.mem_cons, List.mem_singleton, List.not_mem_nil, or_false] at hs
  unfold Qualifies
  rcases hs with rfl | rfl | rfl | rfl | rfl | rfl | rfl | rfl | rfl | rfl <;> norm_num <;>
    decide

/-- C28: `checkForAlerts` generates no alert from the sensor list built by
`initializeMockData`, so `initializeMockData` leaves every alert log as it was. -/
theorem C28_demo_mode_raises_no_alert (h : Host) (st : AppState) :
    (∀ t t', (newAlerts h t (mockSensors h t')).1 = []) ∧
    (initializeMockData h st).alerts = st.alerts ∧
    (∀ prior : AppState, (checkForAlerts h (mockSensors h st.tick) prior).alerts
      = prior.alerts) := by
  have hq : ∀ t t', (newAlerts h t (mockSensors h t')).1 = [] :=
    fun t t' => newAlerts_eq_nil h t _ (mockSensors_quiet h t')
  refine ⟨hq, ?_, fun prior => ?_⟩
  · unfold initializeMockData
    rw [checkForAlerts_alerts, if_pos (hq _ _)]
  · rw [checkForAlerts_alerts, if_pos (hq _ _)]

/-! ## The valve panel of the Alerts view -/

theorem controlValves_snoc (st : AlertsViewState)
    (calls : List (String × String × ControlOutcome)) (c : String × String × ControlOutcome) :
    Alerts.controlValves st (calls ++ [c])
      = Alerts.controlValve c.1 c.2.1 c.2.2 (Alerts.controlValves st calls) := by
  simp [Alerts.controlValves, List.foldl_append]

theorem lastConfirmed_snoc (v : String) (calls : List (String × String × ControlOutcome))
    (c : String × String × ControlOutcome) :
    lastConfirmed v (calls ++ [c])
      = if c.1 = v ∧ c.2.2 = ControlOutcome.ok then some c.2.1 else lastConfirmed v calls := by
  unfold lastConfirmed
  by_cases hc : c.1 = v ∧ c.2.2 = ControlOutcome.ok
  · simp [List.filter_append, List.filter_cons, hc]
  · simp [List.filter_append, List.filter_cons, hc]

theorem controlValves_lookup (v : String) (calls : List (String × String × ControlOutcome)) :
    (Alerts.controlValves initialAlertsView calls).valveControls v = lastConfirmed v calls := by
  induction calls using List.reverseRecOn with
  | nil => rfl
  | append_singleton calls c ih =>
    rw [controlValves_snoc, lastConfirmed_snoc]
    obtain ⟨valveId, action, outcome⟩ := c
    cases outcome with
    | ok =>
      by_cases hv : valveId = v
      · subst hv
        simp [Alerts.controlValve]
      · have hv' : ¬ v = valveId := fun heq => hv heq.symm
        simp [Alerts.controlValve, hv, hv', ih]
    | notOk => simpa [Alerts.controlValve] using ih
    | thrown => simpa [Alerts.controlValve] using ih

/-- C29: after any sequence of `controlValve` calls of the Alerts view,
`valveControls[v]` is the action of the most recent call for `v` whose response
was ok, and unset when there was none; a call that throws or gets a non-ok
response leaves `valveControls` as it was, and a confirmed call sets the entry
of its own valve and no other. -/
theorem C29_valveControls_last_confirmed
    (calls : List (String × String × ControlOutcome)) (v : String) :
    (Alerts.controlValves initialAlertsView calls).valveControls v = lastConfirmed v calls ∧
    (∀ (st : AlertsViewState) (valveId action : String),
      (Alerts.controlValve valveId action .notOk st).valveControls = st.valveControls ∧
      (Alerts.controlValve valveId action .thrown st).valveControls = st.valveControls ∧
      (Alerts.controlValve valveId action .ok st).valveControls valveId = some action ∧
      (∀ key, key ≠ valveId →
        (Alerts.controlValve valveId action .ok st).valveControls key
          = st.valveControls key)) := by
  refine ⟨controlValves_lookup v calls, fun st valveId action => ⟨rfl, rfl, ?_, ?_⟩⟩
  · simp [Alerts.controlValve]
  · intro key hkey
    simp [Alerts.controlValve, hkey]

/-! ## Severities in the log -/

theorem newAlerts_severity (h : Host) (t : Nat) (xs : List Sensor) (a : Alert)
    (ha : a ∈ (newAlerts h t xs).1) :
    (a.type = "warning" ∧ a.sensor.type = "water_level") ∨
      (a.type = "critical" ∧ a.sensor.type = "storage") := by
  obtain ⟨s, -, k, -, hcase⟩ := mem_newAlerts h xs t a ha
  rcases hcase with ⟨hty, -, rfl⟩ | ⟨hty, -, rfl⟩
  · exact Or.inl ⟨rfl, hty⟩
  · exact Or.inr ⟨rfl, hty⟩

theorem checkAll_severity (h : Host) (batches : List (List Sensor)) (st : AppState)
    (hst : ∀ a ∈ st.alerts, (a.type = "warning" ∧ a.sensor.type = "water_level") ∨
      (a.type = "critical" ∧ a.sensor.type = "storage")) :
    ∀ a ∈ (checkAll h st batches).alerts,
      (a.type = "warning" ∧ a.sensor.type = "water_level") ∨
        (a.type = "critical" ∧ a.sensor.type = "storage") := by
  induction batches generalizing st with
  | nil => exact hst
  | cons b bs ih =>
    apply ih (checkForAlerts h b st)
    intro a ha
    rw [checkForAlerts_alerts] at ha
    by_cases hn : (newAlerts h st.tick b).1 = []
    · rw [if_pos hn] at ha; exact hst a ha
    · rw [if_neg hn, List.mem_append] at ha
      rcases ha with ha | ha
      · exact newAlerts_severity h st.tick b a ha
      · exact hst a (List.take_subset _ _ ha)

theorem counts_add (alerts : List Alert)
    (hall : ∀ a ∈ alerts, a.type = "warning" ∨ a.type = "critical") :
    criticalCount alerts + warningCount alerts = alerts.length := by
  induction alerts with
  | nil => rfl
  | cons a rest ih =>
    have ih' := ih fun x hx => hall x (List.mem_cons_of_mem _ hx)
    unfold criticalCount warningCount at ih' ⊢
    rcases hall a (List.mem_cons_self _ _) with hw | hc
    · have hne : ¬ a.type = "critical" := by rw [hw]; decide
      rw [List.filter_cons, List.filter_cons, if_neg (by simpa using hne),
        if_pos (by simpa using hw)]
      simp only [List.length_cons]
      omega
    · have hne : ¬ a.type = "warning" := by rw [hc]; decide
      rw [List.filter_cons, List.filter_cons, if_pos (by simpa using hc),
        if_neg (by simpa using hne)]
      simp only [List.length_cons]
      omega

/-- C30: in every alert log reached from the empty log through
`checkForAlerts`, each alert is a `warning` with a `water_level` source sensor
or a `critical` with a `storage` source sensor, and the critical count and the
warning count of the Alerts view add up to the length of the log. -/
theorem C30_severities_partition_log (h : Host) (batches : List (List Sensor)) :
    (∀ a ∈ (checkAll h initialState batches).alerts,
      (a.type = "warning" ∧ a.sensor.type = "water_level") ∨
        (a.type = "critical" ∧ a.sensor.type = "storage")) ∧
    criticalCount (checkAll h initialState batches).alerts
        + warningCount (checkAll h initialState batches).alerts
      = (checkAll h initialState batches).alerts.length := by
  have hall := checkAll_severity h batches initialState
    (fun a ha => absurd ha (List.not_mem_nil a))
  refine ⟨hall, counts_add _ fun a ha => ?_⟩
  rcases hall a ha with hw | hc
  · exact Or.inl hw.1
  · exact Or.inr hc.1

end QuantumCrew
